import Mathlib

/-!
Verification of the mini-sql-compiler front end (lexer, recursive-descent
parser, schema-aware semantic analyzer) against its specification.

The definitions below are a shallow embedding of the C++ sources:
  src/src/lexer.cpp, src/src/parser.cpp, src/src/semantic.cpp,
  src/src/symbol_table.cpp, src/src/main.cpp (compileAndExecute),
  src/include/common.h, src/include/symbol_table.h.

Modelling conventions:
- `std::string` source text is a `List Char`; token/diagnostic texts are
  Lean `String`s.  C `isalpha`/`isdigit`/`isalnum`/`toupper`/`tolower`
  (ASCII, "C" locale) are `Char.isAlpha` etc., which agree on ASCII.
- C++ `int` counters (line, column) are `Nat`: they only ever increase from 1
  and overflow is unreachable for any realistic input.
- `while` loops are embedded as structurally recursive functions over an
  explicit iteration bound (`gas`).  Every call site passes a bound that is
  provably sufficient because each loop iteration strictly consumes at least
  one character / token (this is proved below, see `lexRun_atEnd`), so the
  gas-exhaustion branch replicates the loop's normal exit and is unreachable.
  Structural recursion keeps every definition kernel-computable.
- Messages printed with `std::cout` carry no validation state; the single
  print that the spec calls an "advisory" (the soft type-compatibility
  warning in `SemanticAnalyzer::validateCondition`) is captured in a
  `warnings` channel so that theorems can speak about it.  The apostrophe
  character inside message strings is written with its escape `\x27`.
- `std::unordered_map` iteration order (used only to build the
  "Available tables:" message text) is unspecified in C++; the embedding
  uses insertion order.  No theorem relies on that order except through the
  fixed prefix of the message.
-/

/-- Token categories, `TokenType` from `common.h` together with the extended
enumerators used by `lexer.cpp`/`parser.cpp` (the extended grammar revision,
which the spec declares canonical). -/
inductive TokenType where
  | KEYWORD_SELECT
  | KEYWORD_FROM
  | KEYWORD_WHERE
  | KEYWORD_AND
  | KEYWORD_OR
  | KEYWORD_INSERT
  | KEYWORD_INTO
  | KEYWORD_VALUES
  | KEYWORD_UPDATE
  | KEYWORD_SET
  | KEYWORD_DELETE
  | KEYWORD_CREATE
  | KEYWORD_TABLE
  | IDENTIFIER
  | NUMBER
  | STRING_LITERAL
  | OP_EQUALS
  | OP_NOT_EQUALS
  | OP_LESS_THAN
  | OP_LESS_EQUALS
  | OP_GREATER_THAN
  | OP_GREATER_EQUALS
  | OP_COMMA
  | OP_STAR
  | OP_SEMICOLON
  | OP_LPAREN
  | OP_RPAREN
  | END_OF_INPUT
  | UNKNOWN
deriving DecidableEq, Repr

/-- `Token` from `common.h`: kind, literal text, 1-indexed line and column. -/
structure Token where
  type : TokenType
  value : String
  line : Nat
  column : Nat
deriving DecidableEq, Repr

/-- `ErrorType` from `common.h`. -/
inductive ErrorType where
  | LEXICAL_ERROR
  | SYNTAX_ERROR
  | SEMANTIC_ERROR
deriving DecidableEq, Repr

/-- `CompilerError` from `common.h`: category, message, line, column. -/
structure CompilerError where
  type : ErrorType
  message : String
  line : Nat
  column : Nat
deriving DecidableEq, Repr

/-- `NodeType` from `common.h` plus the extended node kinds used by
`parser.cpp` (INSERT/UPDATE/DELETE statements). -/
inductive NodeType where
  | QUERY
  | SELECT_CLAUSE
  | COLUMN_LIST
  | COLUMN
  | FROM_CLAUSE
  | TABLE_NAME
  | WHERE_CLAUSE
  | CONDITION
  | OPERATOR
  | VALUE
  | INSERT_QUERY
  | UPDATE_QUERY
  | DELETE_QUERY
  | SET_CLAUSE
  | ASSIGNMENT
  | VALUE_LIST
deriving DecidableEq, Repr

/-- `ParseTreeNode` from `common.h`: node kind, optional text payload, and
the ordered list of owned children. -/
inductive ParseTreeNode where
  | mk (type : NodeType) (value : String) (children : List ParseTreeNode)

/-- Node kind accessor (field `type` of `ParseTreeNode`). -/
def ParseTreeNode.type : ParseTreeNode → NodeType
  | .mk t _ _ => t

/-- Text payload accessor (field `value` of `ParseTreeNode`). -/
def ParseTreeNode.value : ParseTreeNode → String
  | .mk _ v _ => v

/-- Children accessor (field `children` of `ParseTreeNode`). -/
def ParseTreeNode.children : ParseTreeNode → List ParseTreeNode
  | .mk _ _ cs => cs

/-- `std::transform(..., ::toupper)`: per-character ASCII upcasing. -/
def strUpper (s : String) : String :=
  String.mk (s.data.map Char.toUpper)

/-- `std::transform(..., ::tolower)`: per-character ASCII downcasing. -/
def strLower (s : String) : String :=
  String.mk (s.data.map Char.toLower)

/-- The keyword lookup table `Lexer::keywords` from `lexer.cpp`. -/
def keywords : List (String × TokenType) :=
  [("SELECT", .KEYWORD_SELECT),
   ("FROM", .KEYWORD_FROM),
   ("WHERE", .KEYWORD_WHERE),
   ("AND", .KEYWORD_AND),
   ("OR", .KEYWORD_OR),
   ("INSERT", .KEYWORD_INSERT),
   ("INTO", .KEYWORD_INTO),
   ("VALUES", .KEYWORD_VALUES),
   ("UPDATE", .KEYWORD_UPDATE),
   ("SET", .KEYWORD_SET),
   ("DELETE", .KEYWORD_DELETE),
   ("CREATE", .KEYWORD_CREATE),
   ("TABLE", .KEYWORD_TABLE)]

/-- The mutable part of `Lexer` (the source string is passed separately as a
fixed parameter): cursor positions, position bookkeeping, and the output
token/error collections. -/
structure LexState where
  start : Nat
  current : Nat
  line : Nat
  column : Nat
  startColumn : Nat
  tokens : List Token
  errors : List CompilerError
deriving Repr

/-- `Lexer::isAtEnd`. -/
def lexAtEnd (src : List Char) (s : LexState) : Bool :=
  src.length ≤ s.current

/-- `Lexer::peek`: current character, `'\0'` at end of input. -/
def lexPeek (src : List Char) (s : LexState) : Char :=
  if lexAtEnd src s then '\x00' else src.getD s.current '\x00'

/-- `Lexer::peekNext`: one character of extra lookahead. -/
def lexPeekNext (src : List Char) (s : LexState) : Char :=
  if src.length ≤ s.current + 1 then '\x00' else src.getD (s.current + 1) '\x00'

/-- `Lexer::advance`: consume one character (column++ and current++),
returning the consumed character. -/
def lexAdvance (src : List Char) (s : LexState) : Char × LexState :=
  (src.getD s.current '\x00',
   { s with column := s.column + 1, current := s.current + 1 })

/-- `Lexer::match`: conditionally consume `expected`. -/
def lexMatch (src : List Char) (s : LexState) (expected : Char) :
    Bool × LexState :=
  if lexAtEnd src s then (false, s)
  else if src.getD s.current '\x00' ≠ expected then (false, s)
  else (true, { s with current := s.current + 1, column := s.column + 1 })

/-- `source.substr(start, current - start)`: the current lexeme. -/
def lexemeOf (src : List Char) (s : LexState) : String :=
  String.mk ((src.drop s.start).take (s.current - s.start))

/-- `Lexer::addToken(type)`: token text is the current lexeme; position is
the current line and the column captured at the start of the token. -/
def addTokenL (src : List Char) (s : LexState) (ty : TokenType) : LexState :=
  { s with tokens := s.tokens ++ [⟨ty, lexemeOf src s, s.line, s.startColumn⟩] }

/-- `Lexer::addToken(type, value)`. -/
def addTokenV (s : LexState) (ty : TokenType) (v : String) : LexState :=
  { s with tokens := s.tokens ++ [⟨ty, v, s.line, s.startColumn⟩] }

/-- `Lexer::reportError`: a lexical diagnostic at the current line and the
token's start column. -/
def lexReportError (s : LexState) (msg : String) : LexState :=
  { s with errors := s.errors ++ [⟨.LEXICAL_ERROR, msg, s.line, s.startColumn⟩] }

/-- The `while` loop of `Lexer::scanIdentifier`: consume alphanumerics and
underscores.  `gas` bounds the iteration count (see module comment). -/
def identLoop (src : List Char) : Nat → LexState → LexState
  | 0, s => s
  | gas + 1, s =>
    if !lexAtEnd src s && ((lexPeek src s).isAlphanum || lexPeek src s == '_')
    then identLoop src gas (lexAdvance src s).2
    else s

/-- `Lexer::scanIdentifier`: finish the identifier, then classify it as a
keyword (upper-cased) or an identifier (original text). -/
def scanIdentifier (src : List Char) (s : LexState) : LexState :=
  let s1 := identLoop src (src.length - s.current) s
  let text := lexemeOf src s1
  let upperText := strUpper text
  match List.lookup upperText keywords with
  | some ty => addTokenV s1 ty upperText
  | none => addTokenV s1 .IDENTIFIER text

/-- The digit-consuming `while` loops of `Lexer::scanNumber`. -/
def digitLoop (src : List Char) : Nat → LexState → LexState
  | 0, s => s
  | gas + 1, s =>
    if !lexAtEnd src s && (lexPeek src s).isDigit
    then digitLoop src gas (lexAdvance src s).2
    else s

/-- `Lexer::scanNumber`: digits, then optionally a decimal point followed by
more digits (the dot is only consumed when followed by a digit). -/
def scanNumber (src : List Char) (s : LexState) : LexState :=
  let s1 := digitLoop src (src.length - s.current) s
  let s2 :=
    if lexPeek src s1 == '.' && (lexPeekNext src s1).isDigit then
      let s1' := (lexAdvance src s1).2
      digitLoop src (src.length - s1'.current) s1'
    else s1
  addTokenV s2 .NUMBER (lexemeOf src s2)

/-- The scanning `while` loop of `Lexer::scanString`: consume characters up
to the closing quote, tracking embedded newlines. -/
def stringLoop (src : List Char) : Nat → LexState → LexState
  | 0, s => s
  | gas + 1, s =>
    if !lexAtEnd src s && lexPeek src s != '\x27' then
      let s' :=
        if lexPeek src s == '\n'
        then { s with line := s.line + 1, column := 0 }
        else s
      stringLoop src gas (lexAdvance src s').2
    else s

/-- `Lexer::scanString`: the opening quote has been consumed.  An unclosed
string is a lexical error anchored at the opening quote's position; a closed
one yields a string token whose value excludes the quotes. -/
def scanString (src : List Char) (s : LexState) : LexState :=
  let stringStartLine := s.line
  let stringStartCol := s.startColumn
  let s1 := stringLoop src (src.length - s.current) s
  if lexAtEnd src s1 then
    { s1 with errors := s1.errors ++
        [⟨.LEXICAL_ERROR, "Unterminated string literal",
          stringStartLine, stringStartCol⟩] }
  else
    let s2 := (lexAdvance src s1).2
    addTokenV s2 .STRING_LITERAL
      (String.mk ((src.drop (s2.start + 1)).take (s2.current - s2.start - 2)))

/-- The `switch` body of `Lexer::scanToken`: `c` is the consumed character
and `s1` the state right after consuming it. -/
def scanTokSwitch (src : List Char) (c : Char) (s1 : LexState) : LexState :=
  match c with
  | ' ' | '\r' | '\t' => s1
  | '\n' => { s1 with line := s1.line + 1, column := 1 }
  | '*' => addTokenL src s1 .OP_STAR
  | ',' => addTokenL src s1 .OP_COMMA
  | ';' => addTokenL src s1 .OP_SEMICOLON
  | '(' => addTokenL src s1 .OP_LPAREN
  | ')' => addTokenL src s1 .OP_RPAREN
  | '=' => addTokenL src s1 .OP_EQUALS
  | '!' =>
    if (lexMatch src s1 '=').1 then
      addTokenV (lexMatch src s1 '=').2 .OP_NOT_EQUALS "!="
    else
      lexReportError (lexMatch src s1 '=').2
        "Unexpected character \x27!\x27, did you mean \x27!=\x27?"
  | '<' =>
    if (lexMatch src s1 '=').1 then
      addTokenV (lexMatch src s1 '=').2 .OP_LESS_EQUALS "<="
    else addTokenL src (lexMatch src s1 '=').2 .OP_LESS_THAN
  | '>' =>
    if (lexMatch src s1 '=').1 then
      addTokenV (lexMatch src s1 '=').2 .OP_GREATER_EQUALS ">="
    else addTokenL src (lexMatch src s1 '=').2 .OP_GREATER_THAN
  | '\x27' => scanString src s1
  | _ =>
    if c.isAlpha || c == '_' then scanIdentifier src s1
    else if c.isDigit then scanNumber src s1
    else lexReportError s1 ("Unexpected character \x27" ++ String.singleton c ++ "\x27")

/-- `Lexer::scanToken`: consume one character and dispatch on it. -/
def scanTok (src : List Char) (s : LexState) : LexState :=
  scanTokSwitch src (lexAdvance src s).1 (lexAdvance src s).2

/-- The main `while (!isAtEnd())` loop of `Lexer::tokenize`: mark the token
start (`start = current; startColumn = column`) and scan one token. -/
def lexRun (src : List Char) : Nat → LexState → LexState
  | 0, s => s
  | gas + 1, s =>
    if lexAtEnd src s then s
    else lexRun src gas
      (scanTok src { s with start := s.current, startColumn := s.column })

/-- `Lexer::tokenize`: scan the whole source, then append the explicit
end-of-input token. -/
def tokenize (src : List Char) : LexState :=
  let s0 : LexState := ⟨0, 0, 1, 1, 1, [], []⟩
  let s1 := lexRun src src.length s0
  { s1 with tokens := s1.tokens ++ [⟨.END_OF_INPUT, "", s1.line, s1.column⟩] }

/-- The mutable part of `Parser` (the token stream is a fixed parameter):
token cursor and accumulated syntax errors. -/
structure PState where
  current : Nat
  errors : List CompilerError
deriving Repr

/-- Out-of-range default for token accesses.  `Parser` indexes `tokens`
unchecked; every reachable access is in range because the lexer terminates
the stream with an `END_OF_INPUT` token past which the cursor never moves. -/
def dfltTok : Token := ⟨.END_OF_INPUT, "", 0, 0⟩

/-- `Parser::peek`. -/
def pPeek (toks : List Token) (p : PState) : Token :=
  toks.getD p.current dfltTok

/-- `Parser::previous`. -/
def pPrev (toks : List Token) (p : PState) : Token :=
  toks.getD (p.current - 1) dfltTok

/-- `Parser::isAtEnd`: the current token is the end-of-input token. -/
def pAtEnd (toks : List Token) (p : PState) : Bool :=
  (pPeek toks p).type == .END_OF_INPUT

/-- `Parser::advance`: move past the current token (unless at end) and
return it. -/
def pAdvance (toks : List Token) (p : PState) : Token × PState :=
  let p' := if pAtEnd toks p then p else { p with current := p.current + 1 }
  (pPrev toks p', p')

/-- `Parser::check`. -/
def pCheck (toks : List Token) (p : PState) (ty : TokenType) : Bool :=
  if pAtEnd toks p then false else (pPeek toks p).type == ty

/-- `Parser::match`. -/
def pMatch (toks : List Token) (p : PState) (ty : TokenType) : Bool × PState :=
  if pCheck toks p ty then (true, (pAdvance toks p).2) else (false, p)

/-- `Parser::error`: record a syntax diagnostic
`message ++ " (found 'current token text')"` anchored at the current token's
line and column. -/
def pError (toks : List Token) (p : PState) (msg : String) : PState :=
  let t := pPeek toks p
  { p with errors := p.errors ++
      [⟨.SYNTAX_ERROR, msg ++ " (found \x27" ++ t.value ++ "\x27)",
        t.line, t.column⟩] }

/-- `Parser::consume`: on a kind match, advance; otherwise record the
diagnostic via `pError` and return a placeholder `UNKNOWN` token — note that
the cursor does not move and the caller continues. -/
def pConsume (toks : List Token) (p : PState) (ty : TokenType)
    (msg : String) : Token × PState :=
  if pCheck toks p ty then pAdvance toks p
  else (⟨.UNKNOWN, "", (pPeek toks p).line, (pPeek toks p).column⟩,
        pError toks p msg)

/-- The `while (match(OP_COMMA))` loop shared verbatim by
`Parser::parseColumnList` and the column-list section of
`Parser::parseInsert`: collect further `COLUMN` leaves after commas. -/
def colListLoop (toks : List Token) :
    Nat → PState → List ParseTreeNode → Option ParseTreeNode × PState
  | 0, p, acc => (some (.mk .COLUMN_LIST "" acc), p)
  | gas + 1, p, acc =>
    let m := (pMatch toks p .OP_COMMA).1
    let p1 := (pMatch toks p .OP_COMMA).2
    if !m then (some (.mk .COLUMN_LIST "" acc), p1)
    else if !pCheck toks p1 .IDENTIFIER then
      (none, pError toks p1 "Expected column name after \x27,\x27")
    else
      let t := (pAdvance toks p1).1
      let p2 := (pAdvance toks p1).2
      colListLoop toks gas p2 (acc ++ [.mk .COLUMN t.value []])

/-- `Parser::parseColumnList`. -/
def parseColumnList (toks : List Token) (p : PState) :
    Option ParseTreeNode × PState :=
  let m := (pMatch toks p .OP_STAR).1
  let p1 := (pMatch toks p .OP_STAR).2
  if m then (some (.mk .COLUMN_LIST "" [.mk .COLUMN "*" []]), p1)
  else if !pCheck toks p1 .IDENTIFIER then
    (none, pError toks p1 "Expected column name or \x27*\x27 after SELECT")
  else
    let t := (pAdvance toks p1).1
    let p2 := (pAdvance toks p1).2
    colListLoop toks toks.length p2 [.mk .COLUMN t.value []]

/-- `Parser::parseSelectClause`. -/
def parseSelectClause (toks : List Token) (p : PState) :
    Option ParseTreeNode × PState :=
  let m := (pMatch toks p .KEYWORD_SELECT).1
  let p1 := (pMatch toks p .KEYWORD_SELECT).2
  if !m then
    (none, pError toks p1 "Expected \x27SELECT\x27 keyword at beginning of query")
  else
    match parseColumnList toks p1 with
    | (some cl, p2) => (some (.mk .SELECT_CLAUSE "SELECT" [cl]), p2)
    | (none, p2) => (none, p2)

/-- `Parser::parseFromClause`. -/
def parseFromClause (toks : List Token) (p : PState) :
    Option ParseTreeNode × PState :=
  let m := (pMatch toks p .KEYWORD_FROM).1
  let p1 := (pMatch toks p .KEYWORD_FROM).2
  if !m then (none, pError toks p1 "Expected \x27FROM\x27 keyword")
  else if !pCheck toks p1 .IDENTIFIER then
    (none, pError toks p1 "Expected table name after \x27FROM\x27")
  else
    let t := (pAdvance toks p1).1
    let p2 := (pAdvance toks p1).2
    (some (.mk .FROM_CLAUSE "FROM" [.mk .TABLE_NAME t.value []]), p2)

/-- `Parser::parseCondition`: column, relational operator, value — aborting
(null) at the first mismatch. -/
def parseCondition (toks : List Token) (p : PState) :
    Option ParseTreeNode × PState :=
  if !pCheck toks p .IDENTIFIER then
    (none, pError toks p "Expected column name in WHERE condition")
  else
    let colT := (pAdvance toks p).1
    let p1 := (pAdvance toks p).2
    if !(pCheck toks p1 .OP_EQUALS || pCheck toks p1 .OP_NOT_EQUALS ||
         pCheck toks p1 .OP_LESS_THAN || pCheck toks p1 .OP_LESS_EQUALS ||
         pCheck toks p1 .OP_GREATER_THAN || pCheck toks p1 .OP_GREATER_EQUALS)
    then
      (none,
       pError toks p1 "Expected relational operator (=, !=, <, <=, >, >=) in condition")
    else
      let opT := (pAdvance toks p1).1
      let p2 := (pAdvance toks p1).2
      if !(pCheck toks p2 .IDENTIFIER || pCheck toks p2 .NUMBER ||
           pCheck toks p2 .STRING_LITERAL) then
        (none,
         pError toks p2 "Expected value (identifier, number, or string) in condition")
      else
        let valT := (pAdvance toks p2).1
        let p3 := (pAdvance toks p2).2
        (some (.mk .CONDITION ""
                 [.mk .COLUMN colT.value [], .mk .OPERATOR opT.value [],
                  .mk .VALUE valT.value []]), p3)

/-- `Parser::parseWhereClause`. -/
def parseWhereClause (toks : List Token) (p : PState) :
    Option ParseTreeNode × PState :=
  let m := (pMatch toks p .KEYWORD_WHERE).1
  let p1 := (pMatch toks p .KEYWORD_WHERE).2
  if !m then (none, p1)
  else
    match parseCondition toks p1 with
    | (some c, p2) => (some (.mk .WHERE_CLAUSE "WHERE" [c]), p2)
    | (none, p2) => (none, p2)

/-- The `while (match(OP_COMMA))` loop of `Parser::parseValueList`. -/
def valListLoop (toks : List Token) :
    Nat → PState → List ParseTreeNode → Option ParseTreeNode × PState
  | 0, p, acc => (some (.mk .VALUE_LIST "" acc), p)
  | gas + 1, p, acc =>
    let m := (pMatch toks p .OP_COMMA).1
    let p1 := (pMatch toks p .OP_COMMA).2
    if !m then (some (.mk .VALUE_LIST "" acc), p1)
    else if !(pCheck toks p1 .IDENTIFIER || pCheck toks p1 .NUMBER ||
              pCheck toks p1 .STRING_LITERAL) then
      (none, pError toks p1 "Expected value after \x27,\x27 in VALUES list")
    else
      let t := (pAdvance toks p1).1
      let p2 := (pAdvance toks p1).2
      valListLoop toks gas p2 (acc ++ [.mk .VALUE t.value []])

/-- `Parser::parseValueList`. -/
def parseValueList (toks : List Token) (p : PState) :
    Option ParseTreeNode × PState :=
  if !(pCheck toks p .IDENTIFIER || pCheck toks p .NUMBER ||
       pCheck toks p .STRING_LITERAL) then
    (none, pError toks p "Expected value in VALUES list")
  else
    let t := (pAdvance toks p).1
    let p1 := (pAdvance toks p).2
    valListLoop toks toks.length p1 [.mk .VALUE t.value []]

/-- `Parser::parseInsert`.  Note the `consume` call sites: a missing `(`,
`)` or `;` records a diagnostic but the production continues. -/
def parseInsert (toks : List Token) (p : PState) :
    Option ParseTreeNode × PState :=
  let m1 := (pMatch toks p .KEYWORD_INSERT).1
  let p1 := (pMatch toks p .KEYWORD_INSERT).2
  if !m1 then (none, pError toks p1 "Expected \x27INSERT\x27 keyword")
  else
    let m2 := (pMatch toks p1 .KEYWORD_INTO).1
    let p2 := (pMatch toks p1 .KEYWORD_INTO).2
    if !m2 then (none, pError toks p2 "Expected \x27INTO\x27 after \x27INSERT\x27")
    else if !pCheck toks p2 .IDENTIFIER then
      (none, pError toks p2 "Expected table name after \x27INSERT INTO\x27")
    else
      let tabT := (pAdvance toks p2).1
      let p3 := (pAdvance toks p2).2
      let p4 := (pConsume toks p3 .OP_LPAREN "Expected \x27(\x27 after table name").2
      if !pCheck toks p4 .IDENTIFIER then
        (none, pError toks p4 "Expected column name in column list")
      else
        let colT := (pAdvance toks p4).1
        let p5 := (pAdvance toks p4).2
        match colListLoop toks toks.length p5 [.mk .COLUMN colT.value []] with
        | (none, p6) => (none, p6)
        | (some columnList, p6) =>
          let p7 := (pConsume toks p6 .OP_RPAREN "Expected \x27)\x27 after column list").2
          let m3 := (pMatch toks p7 .KEYWORD_VALUES).1
          let p8 := (pMatch toks p7 .KEYWORD_VALUES).2
          if !m3 then (none, pError toks p8 "Expected \x27VALUES\x27 keyword")
          else
            let p9 := (pConsume toks p8 .OP_LPAREN "Expected \x27(\x27 after VALUES").2
            match parseValueList toks p9 with
            | (none, p10) => (none, p10)
            | (some valueList, p10) =>
              let p11 := (pConsume toks p10 .OP_RPAREN "Expected \x27)\x27 after value list").2
              let p12 := (pConsume toks p11 .OP_SEMICOLON "Expected \x27;\x27 at end of INSERT statement").2
              (some (.mk .INSERT_QUERY ""
                       [.mk .TABLE_NAME tabT.value [], columnList, valueList]),
               p12)

/-- `Parser::parseUpdate`. -/
def parseUpdate (toks : List Token) (p : PState) :
    Option ParseTreeNode × PState :=
  let m1 := (pMatch toks p .KEYWORD_UPDATE).1
  let p1 := (pMatch toks p .KEYWORD_UPDATE).2
  if !m1 then (none, pError toks p1 "Expected \x27UPDATE\x27 keyword")
  else if !pCheck toks p1 .IDENTIFIER then
    (none, pError toks p1 "Expected table name after \x27UPDATE\x27")
  else
    let tabT := (pAdvance toks p1).1
    let p2 := (pAdvance toks p1).2
    let m2 := (pMatch toks p2 .KEYWORD_SET).1
    let p3 := (pMatch toks p2 .KEYWORD_SET).2
    if !m2 then (none, pError toks p3 "Expected \x27SET\x27 keyword after table name")
    else if !pCheck toks p3 .IDENTIFIER then
      (none, pError toks p3 "Expected column name in SET clause")
    else
      let setCol := (pAdvance toks p3).1
      let p4 := (pAdvance toks p3).2
      let p5 := (pConsume toks p4 .OP_EQUALS "Expected \x27=\x27 in SET clause").2
      if !(pCheck toks p5 .IDENTIFIER || pCheck toks p5 .NUMBER ||
           pCheck toks p5 .STRING_LITERAL) then
        (none, pError toks p5 "Expected value in SET clause")
      else
        let setVal := (pAdvance toks p5).1
        let p6 := (pAdvance toks p5).2
        let setClause : ParseTreeNode :=
          .mk .SET_CLAUSE "SET"
            [.mk .ASSIGNMENT ""
               [.mk .COLUMN setCol.value [], .mk .VALUE setVal.value []]]
        if pCheck toks p6 .KEYWORD_WHERE then
          match parseWhereClause toks p6 with
          | (some wc, p7) =>
            let p8 := (pConsume toks p7 .OP_SEMICOLON "Expected \x27;\x27 at end of UPDATE statement").2
            (some (.mk .UPDATE_QUERY ""
                     [.mk .TABLE_NAME tabT.value [], setClause, wc]), p8)
          | (none, p7) => (none, p7)
        else
          let p7 := (pConsume toks p6 .OP_SEMICOLON "Expected \x27;\x27 at end of UPDATE statement").2
          (some (.mk .UPDATE_QUERY ""
                   [.mk .TABLE_NAME tabT.value [], setClause]), p7)

/-- `Parser::parseDelete`. -/
def parseDelete (toks : List Token) (p : PState) :
    Option ParseTreeNode × PState :=
  let m1 := (pMatch toks p .KEYWORD_DELETE).1
  let p1 := (pMatch toks p .KEYWORD_DELETE).2
  if !m1 then (none, pError toks p1 "Expected \x27DELETE\x27 keyword")
  else
    match parseFromClause toks p1 with
    | (none, p2) => (none, p2)
    | (some fc, p2) =>
      if pCheck toks p2 .KEYWORD_WHERE then
        match parseWhereClause toks p2 with
        | (some wc, p3) =>
          let p4 := (pConsume toks p3 .OP_SEMICOLON "Expected \x27;\x27 at end of DELETE statement").2
          (some (.mk .DELETE_QUERY "" [fc, wc]), p4)
        | (none, p3) => (none, p3)
      else
        let p3 := (pConsume toks p2 .OP_SEMICOLON "Expected \x27;\x27 at end of DELETE statement").2
        (some (.mk .DELETE_QUERY "" [fc]), p3)

/-- `Parser::parseQuery`: dispatch on the first token; the default path is
the SELECT statement. -/
def parseQuery (toks : List Token) (p : PState) :
    Option ParseTreeNode × PState :=
  if pCheck toks p .KEYWORD_INSERT then parseInsert toks p
  else if pCheck toks p .KEYWORD_UPDATE then parseUpdate toks p
  else if pCheck toks p .KEYWORD_DELETE then parseDelete toks p
  else
    match parseSelectClause toks p with
    | (none, p1) => (none, p1)
    | (some sc, p1) =>
      match parseFromClause toks p1 with
      | (none, p2) => (none, p2)
      | (some fc, p2) =>
        if pCheck toks p2 .KEYWORD_WHERE then
          match parseWhereClause toks p2 with
          | (none, p3) => (none, p3)
          | (some wc, p3) =>
            let p4 := (pConsume toks p3 .OP_SEMICOLON "Expected \x27;\x27 at end of query").2
            (some (.mk .QUERY "" [sc, fc, wc]), p4)
        else
          let p3 := (pConsume toks p2 .OP_SEMICOLON "Expected \x27;\x27 at end of query").2
          (some (.mk .QUERY "" [sc, fc]), p3)

/-- `Parser::parse` on a fresh parser (`current = 0`, no errors). -/
def parseTokens (toks : List Token) : Option ParseTreeNode × PState :=
  parseQuery toks ⟨0, []⟩

/-- `ColumnInfo` from `symbol_table.h`. -/
structure ColumnInfo where
  name : String
  dataType : String
deriving DecidableEq, Repr

/-- `TableInfo` from `symbol_table.h`. -/
structure TableInfo where
  name : String
  columns : List ColumnInfo
deriving DecidableEq, Repr

/-- `TableInfo::hasColumn`: exact (case-sensitive) name comparison. -/
def hasColumn (t : TableInfo) (colName : String) : Bool :=
  t.columns.any (fun c => c.name == colName)

/-- The fixed sample schema built by the `SymbolTable` constructor in
`symbol_table.cpp`, in insertion order. -/
def schemaTables : List TableInfo :=
  [⟨"employees",
    [⟨"id", "INT"⟩, ⟨"name", "VARCHAR"⟩, ⟨"age", "INT"⟩,
     ⟨"salary", "FLOAT"⟩, ⟨"department", "VARCHAR"⟩]⟩,
   ⟨"departments",
    [⟨"id", "INT"⟩, ⟨"name", "VARCHAR"⟩, ⟨"budget", "FLOAT"⟩]⟩,
   ⟨"users",
    [⟨"id", "INT"⟩, ⟨"username", "VARCHAR"⟩, ⟨"email", "VARCHAR"⟩,
     ⟨"age", "INT"⟩, ⟨"status", "VARCHAR"⟩]⟩,
   ⟨"products",
    [⟨"id", "INT"⟩, ⟨"name", "VARCHAR"⟩, ⟨"price", "FLOAT"⟩,
     ⟨"quantity", "INT"⟩]⟩]

/-- `SymbolTable::tableExists`: exact lookup against the stored keys. -/
def tableExists (tableName : String) : Bool :=
  schemaTables.any (fun t => t.name == tableName)

/-- `SymbolTable::getTable`. -/
def getTable (tableName : String) : Option TableInfo :=
  schemaTables.find? (fun t => t.name == tableName)

/-- `SymbolTable::columnExists`. -/
def columnExists (tableName columnName : String) : Bool :=
  match getTable tableName with
  | none => false
  | some t => hasColumn t columnName

/-- `SymbolTable::getTableNames` (iteration order modelled as insertion
order; see the module comment). -/
def getTableNames : List String :=
  schemaTables.map (fun t => t.name)

/-- Comma-separated joining as done by the message-building loops in
`semantic.cpp` (`if (i > 0) msg += ", "; msg += names[i];`). -/
def joinComma : List String → String
  | [] => ""
  | x :: xs => xs.foldl (fun acc y => acc ++ ", " ++ y) x

/-- The mutable part of `SemanticAnalyzer`: the current-table inherited
attribute and the diagnostic list.  `warnings` captures the advisory lines
printed with `std::cout` in `validateCondition` (they are not diagnostics). -/
structure SemState where
  currentTable : String
  errors : List CompilerError
  warnings : List String
deriving DecidableEq, Repr

/-- `SemanticAnalyzer::reportError`; every C++ call site passes the default
position arguments `line = 1, col = 1` (or literally `1, 1`). -/
def semReportError (s : SemState) (msg : String) (line col : Nat) : SemState :=
  { s with errors := s.errors ++ [⟨.SEMANTIC_ERROR, msg, line, col⟩] }

/-- `SemanticAnalyzer::validateColumn`: requires a current table, lowercases
the referenced name, and reports unknown columns listing the table's
columns. -/
def validateColumn (s : SemState) (columnName : String) (line col : Nat) :
    SemState :=
  if s.currentTable == "" then
    semReportError s "No table context for column validation" line col
  else
    let lowerCol := strLower columnName
    if !columnExists s.currentTable lowerCol then
      let names :=
        match getTable s.currentTable with
        | some t => t.columns.map (fun c => c.name)
        | none => []
      semReportError s
        ("Column \x27" ++ columnName ++ "\x27 does not exist in table \x27" ++
         s.currentTable ++ "\x27. Available columns: " ++ joinComma names)
        line col
    else s

/-- `SemanticAnalyzer::validateFromClause`: resolve the table name
case-insensitively; on failure report listing the known tables, on success
set the current table. -/
def validateFromClause (s : SemState) (node : ParseTreeNode) : SemState :=
  node.children.foldl
    (fun s child =>
      if child.type == .TABLE_NAME then
        let tableName := child.value
        let lowerTable := strLower tableName
        if !tableExists lowerTable then
          semReportError s
            ("Table \x27" ++ tableName ++ "\x27 does not exist. " ++
             "Available tables: " ++ joinComma getTableNames) 1 1
        else { s with currentTable := lowerTable }
      else s)
    s

/-- `SemanticAnalyzer::validateSelectClause`: check every column of the
column list; the wildcard `*` is always valid. -/
def validateSelectClause (s : SemState) (node : ParseTreeNode) : SemState :=
  node.children.foldl
    (fun s child =>
      if child.type == .COLUMN_LIST then
        child.children.foldl
          (fun s column =>
            if column.type == .COLUMN then
              if column.value == "*" then s
              else validateColumn s column.value 1 1
            else s)
          s
      else s)
    s

/-- `SemanticAnalyzer::validateCondition`: validate the condition's column,
then perform the soft type-compatibility check, which only ever produces an
advisory warning (never a diagnostic). -/
def validateCondition (s : SemState) (node : ParseTreeNode) : SemState :=
  let acc :=
    node.children.foldl
      (fun (acc : SemState × String × String × String) child =>
        match child.type with
        | .COLUMN =>
          (validateColumn acc.1 child.value 1 1, child.value, acc.2.2.1, acc.2.2.2)
        | .OPERATOR => (acc.1, acc.2.1, child.value, acc.2.2.2)
        | .VALUE => (acc.1, acc.2.1, acc.2.2.1, child.value)
        | _ => acc)
      (s, "", "", "")
  let s1 := acc.1
  let columnName := acc.2.1
  let value := acc.2.2.2
  if columnName != "" && value != "" then
    match getTable s1.currentTable with
    | some table =>
      match table.columns.find? (fun c => c.name == columnName) with
      | some col =>
        let isNumericColumn := col.dataType == "INT" || col.dataType == "FLOAT"
        let isNumericValue :=
          value != "" &&
          ((value.data.headD '\x00').isDigit ||
           (value.data.headD '\x00' == '-' && value.length > 1))
        if isNumericColumn && !isNumericValue then
          { s1 with warnings := s1.warnings ++
              ["Warning: Comparing numeric column \x27" ++ columnName ++
               "\x27 with non-numeric value."] }
        else s1
      | none => s1
    | none => s1
  else s1

/-- `SemanticAnalyzer::validateWhereClause`. -/
def validateWhereClause (s : SemState) (node : ParseTreeNode) : SemState :=
  node.children.foldl
    (fun s child =>
      if child.type == .CONDITION then validateCondition s child else s)
    s

/-- The clause-finding loop of `SemanticAnalyzer::validateQuery`: the last
child of each clause kind wins, as with repeated assignment in C++. -/
def findClauses (children : List ParseTreeNode) :
    Option ParseTreeNode × Option ParseTreeNode × Option ParseTreeNode :=
  children.foldl
    (fun acc child =>
      match child.type with
      | .SELECT_CLAUSE => (some child, acc.2.1, acc.2.2)
      | .FROM_CLAUSE => (acc.1, some child, acc.2.2)
      | .WHERE_CLAUSE => (acc.1, acc.2.1, some child)
      | _ => acc)
    (none, none, none)

/-- `SemanticAnalyzer::validateQuery`: FROM first (to establish the table
context), then SELECT and WHERE, each only under a resolved current table. -/
def validateQuery (s : SemState) (node : ParseTreeNode) : SemState :=
  if node.type != .QUERY then s
  else
    let cl := findClauses node.children
    let selectClause := cl.1
    let fromClause := cl.2.1
    let whereClause := cl.2.2
    let s1 := match fromClause with
      | some fc => validateFromClause s fc
      | none => s
    let s2 := match selectClause with
      | some sc => if s1.currentTable != "" then validateSelectClause s1 sc else s1
      | none => s1
    match whereClause with
    | some wc => if s2.currentTable != "" then validateWhereClause s2 wc else s2
    | none => s2

/-- The child loop of `SemanticAnalyzer::validateInsert`.  The `Bool` result
records the early `return` taken when the table does not exist (the
remaining children and the arity check are skipped). -/
def insChildLoop (s : SemState) (cols : List String) (valueCount : Nat) :
    List ParseTreeNode → SemState × List String × Nat × Bool
  | [] => (s, cols, valueCount, false)
  | child :: rest =>
    match child.type with
    | .TABLE_NAME =>
      let tableName := child.value
      let lowerTable := strLower tableName
      if !tableExists lowerTable then
        (semReportError s ("Table \x27" ++ tableName ++ "\x27 does not exist.") 1 1,
         cols, valueCount, true)
      else
        insChildLoop { s with currentTable := lowerTable } cols valueCount rest
    | .COLUMN_LIST =>
      let acc :=
        child.children.foldl
          (fun (acc : SemState × List String) col =>
            if col.type == .COLUMN then
              (validateColumn acc.1 col.value 1 1, acc.2 ++ [col.value])
            else acc)
          (s, cols)
      insChildLoop acc.1 acc.2 valueCount rest
    | .VALUE_LIST =>
      let vc :=
        child.children.foldl
          (fun vc val => if val.type == .VALUE then vc + 1 else vc) valueCount
      insChildLoop s cols vc rest
    | _ => insChildLoop s cols valueCount rest

/-- `SemanticAnalyzer::validateInsert`: walk the children (resolving the
table and validating the columns), then check declared-column count against
supplied-value count. -/
def validateInsert (s : SemState) (node : ParseTreeNode) : SemState :=
  let r := insChildLoop s [] 0 node.children
  let s1 := r.1
  let columns := r.2.1
  let valueCount := r.2.2.1
  let aborted := r.2.2.2
  if aborted then s1
  else if !columns.isEmpty && valueCount > 0 &&
          columns.length ≠ valueCount then
    semReportError s1
      ("Column count (" ++ toString columns.length ++
       ") does not match value count (" ++ toString valueCount ++ ")") 1 1
  else s1

/-- The child loop of `SemanticAnalyzer::validateUpdate`, with the same
early `return` on a missing table. -/
def updChildLoop (s : SemState) : List ParseTreeNode → SemState
  | [] => s
  | child :: rest =>
    match child.type with
    | .TABLE_NAME =>
      let tableName := child.value
      let lowerTable := strLower tableName
      if !tableExists lowerTable then
        semReportError s ("Table \x27" ++ tableName ++ "\x27 does not exist.") 1 1
      else
        updChildLoop { s with currentTable := lowerTable } rest
    | .SET_CLAUSE =>
      let s1 :=
        child.children.foldl
          (fun s assign =>
            if assign.type == .ASSIGNMENT then
              assign.children.foldl
                (fun s ac =>
                  if ac.type == .COLUMN then validateColumn s ac.value 1 1 else s)
                s
            else s)
          s
      updChildLoop s1 rest
    | .WHERE_CLAUSE => updChildLoop (validateWhereClause s child) rest
    | _ => updChildLoop s rest

/-- `SemanticAnalyzer::validateUpdate`. -/
def validateUpdate (s : SemState) (node : ParseTreeNode) : SemState :=
  updChildLoop s node.children

/-- `SemanticAnalyzer::validateDelete`: FROM clause resolution, then the
WHERE clause only under a resolved current table. -/
def validateDelete (s : SemState) (node : ParseTreeNode) : SemState :=
  node.children.foldl
    (fun s child =>
      if child.type == .FROM_CLAUSE then validateFromClause s child
      else if child.type == .WHERE_CLAUSE then
        if s.currentTable != "" then validateWhereClause s child else s
      else s)
    s

/-- The fresh analyzer state built at the start of
`SemanticAnalyzer::analyze`. -/
def semInit : SemState := ⟨"", [], []⟩

/-- `SemanticAnalyzer::analyze`: dispatch on the root node kind; the result
is pass/fail (no errors) together with the final analyzer state. -/
def analyze (tree : Option ParseTreeNode) : Bool × SemState :=
  match tree with
  | none => (false, semReportError semInit "No parse tree to analyze" 1 1)
  | some t =>
    let s1 :=
      match t.type with
      | .QUERY => validateQuery semInit t
      | .INSERT_QUERY => validateInsert semInit t
      | .UPDATE_QUERY => validateUpdate semInit t
      | .DELETE_QUERY => validateDelete semInit t
      | _ => semReportError semInit "Unknown query type for semantic analysis" 1 1
    (s1.errors.isEmpty, s1)

/-- The outcome of `compileAndExecute` in `main.cpp`, restricted to the
front end: the three per-stage diagnostic lists, the parse tree, the
analyzer's pass/fail flag and its final current table. -/
structure CompileResult where
  tokens : List Token
  lexErrors : List CompilerError
  synErrors : List CompilerError
  semErrors : List CompilerError
  tree : Option ParseTreeNode
  semValid : Bool
  semTable : String

/-- `compileAndExecute` from `main.cpp` (front-end part): tokenize; if any
lexical error, stop (syntax and semantic analysis never run); otherwise
parse; if any syntax error, stop (semantic analysis never runs); otherwise
analyze. -/
def compileQuery (src : List Char) : CompileResult :=
  let lx := tokenize src
  if !lx.errors.isEmpty then
    ⟨lx.tokens, lx.errors, [], [], none, false, ""⟩
  else
    let pr := parseTokens lx.tokens
    let tree := pr.1
    if !pr.2.errors.isEmpty then
      ⟨lx.tokens, [], pr.2.errors, [], tree, false, ""⟩
    else
      let ar := analyze tree
      ⟨lx.tokens, [], [], ar.2.errors, tree, ar.1, ar.2.currentTable⟩

/-- `compileQuery` on a Lean string literal. -/
def compileStr (s : String) : CompileResult :=
  compileQuery s.data

/-- Spec §3: a statement's top-level node is one of the four Query kinds. -/
def isQueryKind : NodeType → Bool
  | .QUERY | .INSERT_QUERY | .UPDATE_QUERY | .DELETE_QUERY => true
  | _ => false

/-- Spec §3 structural invariants, read off the spec's words: every
`CONDITION` node has exactly the children Column, Operator, Value in that
order, and every `WHERE_CLAUSE` node has exactly one child, a `CONDITION`;
the requirements hold recursively at every node of the tree. -/
inductive WfTree : ParseTreeNode → Prop where
  | node : ∀ (ty : NodeType) (v : String) (cs : List ParseTreeNode),
      (ty = .CONDITION → cs.map ParseTreeNode.type = [.COLUMN, .OPERATOR, .VALUE]) →
      (ty = .WHERE_CLAUSE → ∃ c, cs = [c] ∧ c.type = .CONDITION) →
      (∀ c, c ∈ cs → WfTree c) →
      WfTree (.mk ty v cs)

/-- The condition subtree shape built by `Parser::parseCondition`. -/
def condNode (c o v : String) : ParseTreeNode :=
  .mk .CONDITION ""
    [.mk .COLUMN c [], .mk .OPERATOR o [], .mk .VALUE v []]

/-- The statement subtree shape built by `Parser::parseInsert`. -/
def insertShape (tn : String) (cols vals : List ParseTreeNode) : ParseTreeNode :=
  .mk .INSERT_QUERY ""
    [.mk .TABLE_NAME tn [], .mk .COLUMN_LIST "" cols, .mk .VALUE_LIST "" vals]

/-- The arity-mismatch diagnostic of `SemanticAnalyzer::validateInsert`,
citing the declared-column and supplied-value counts. -/
def arityDiag (a b : Nat) : CompilerError :=
  ⟨.SEMANTIC_ERROR,
   "Column count (" ++ toString a ++ ") does not match value count (" ++
   toString b ++ ")", 1, 1⟩

/-- The table-not-found diagnostic emitted by `validateInsert` and
`validateUpdate` (it does not list the known tables). -/
def tableErrShort (tn : String) : CompilerError :=
  ⟨.SEMANTIC_ERROR, "Table \x27" ++ tn ++ "\x27 does not exist.", 1, 1⟩

/-- The table-not-found diagnostic emitted by `validateFromClause`
(SELECT/DELETE paths), which lists the known tables. -/
def tableErrListed (tn : String) : CompilerError :=
  ⟨.SEMANTIC_ERROR,
   "Table \x27" ++ tn ++ "\x27 does not exist. " ++ "Available tables: " ++
   joinComma getTableNames, 1, 1⟩

/-- Substring test on character lists (is `needle` a contiguous infix of the
second argument?), used to state what a diagnostic message does or does not
mention. -/
def listHas (needle : List Char) : List Char → Bool
  | [] => needle.isEmpty
  | c :: rest => needle.isPrefixOf (c :: rest) || listHas needle rest

/-- All diagnostics in a list are anchored at line 1, column 1 (used to
state the fixed-position property of semantic diagnostics). -/
def All11 (l : List CompilerError) : Prop :=
  ∀ e ∈ l, e.line = 1 ∧ e.column = 1

theorem identLoop_inv (src : List Char) :
    ∀ gas s, (identLoop src gas s).line = s.line ∧
      (identLoop src gas s).startColumn = s.startColumn ∧
      (identLoop src gas s).tokens = s.tokens ∧
      (identLoop src gas s).errors = s.errors ∧
      s.current ≤ (identLoop src gas s).current := by
  intro gas
  induction gas with
  | zero => intro s; exact ⟨rfl, rfl, rfl, rfl, le_refl _⟩
  | succ g ih =>
    intro s
    rw [identLoop]
    split
    · obtain ⟨h1, h2, h3, h4, h5⟩ := ih (lexAdvance src s).2
      exact ⟨h1, h2, h3, h4, le_trans (Nat.le_succ _) h5⟩
    · exact ⟨rfl, rfl, rfl, rfl, le_refl _⟩

theorem digitLoop_inv (src : List Char) :
    ∀ gas s, (digitLoop src gas s).line = s.line ∧
      (digitLoop src gas s).startColumn = s.startColumn ∧
      (digitLoop src gas s).tokens = s.tokens ∧
      (digitLoop src gas s).errors = s.errors ∧
      s.current ≤ (digitLoop src gas s).current := by
  intro gas
  induction gas with
  | zero => intro s; exact ⟨rfl, rfl, rfl, rfl, le_refl _⟩
  | succ g ih =>
    intro s
    rw [digitLoop]
    split
    · obtain ⟨h1, h2, h3, h4, h5⟩ := ih (lexAdvance src s).2
      exact ⟨h1, h2, h3, h4, le_trans (Nat.le_succ _) h5⟩
    · exact ⟨rfl, rfl, rfl, rfl, le_refl _⟩

theorem stringLoop_inv (src : List Char) :
    ∀ gas s, (stringLoop src gas s).startColumn = s.startColumn ∧
      (stringLoop src gas s).tokens = s.tokens ∧
      (stringLoop src gas s).errors = s.errors ∧
      (stringLoop src gas s).start = s.start ∧
      s.current ≤ (stringLoop src gas s).current := by
  intro gas
  induction gas with
  | zero => intro s; exact ⟨rfl, rfl, rfl, rfl, le_refl _⟩
  | succ g ih =>
    intro s
    rw [stringLoop]
    split
    · split
      · obtain ⟨h1, h2, h3, h4, h5⟩ :=
          ih (lexAdvance src { s with line := s.line + 1, column := 0 }).2
        exact ⟨h1, h2, h3, h4, le_trans (Nat.le_succ _) h5⟩
      · obtain ⟨h1, h2, h3, h4, h5⟩ := ih (lexAdvance src s).2
        exact ⟨h1, h2, h3, h4, le_trans (Nat.le_succ _) h5⟩
    · exact ⟨rfl, rfl, rfl, rfl, le_refl _⟩

theorem lexMatch_inv (src : List Char) (s : LexState) (e : Char) :
    (lexMatch src s e).2.line = s.line ∧
    (lexMatch src s e).2.startColumn = s.startColumn ∧
    (lexMatch src s e).2.tokens = s.tokens ∧
    (lexMatch src s e).2.errors = s.errors ∧
    s.current ≤ (lexMatch src s e).2.current := by
  unfold lexMatch
  split
  · exact ⟨rfl, rfl, rfl, rfl, le_refl _⟩
  · split
    · exact ⟨rfl, rfl, rfl, rfl, le_refl _⟩
    · exact ⟨rfl, rfl, rfl, rfl, Nat.le_succ _⟩

theorem scanIdentifier_shape (src : List Char) (s : LexState) :
    ∃ tk, (scanIdentifier src s).tokens = s.tokens ++ [tk] ∧
      tk.column = s.startColumn ∧ tk.line = s.line ∧
      (scanIdentifier src s).line = s.line ∧
      (scanIdentifier src s).errors = s.errors ∧
      s.current ≤ (scanIdentifier src s).current := by
  obtain ⟨h1, h2, h3, h4, h5⟩ :=
    identLoop_inv src (src.length - s.current) s
  unfold scanIdentifier
  dsimp only
  split
  · next ty _ =>
    exact ⟨⟨ty, strUpper (lexemeOf src (identLoop src (src.length - s.current) s)),
            (identLoop src (src.length - s.current) s).line,
            (identLoop src (src.length - s.current) s).startColumn⟩,
      by simp [addTokenV, h3], h2, h1, h1, h4, h5⟩
  · exact ⟨⟨.IDENTIFIER, lexemeOf src (identLoop src (src.length - s.current) s),
            (identLoop src (src.length - s.current) s).line,
            (identLoop src (src.length - s.current) s).startColumn⟩,
      by simp [addTokenV, h3], h2, h1, h1, h4, h5⟩

theorem scanNumber_shape (src : List Char) (s : LexState) :
    ∃ tk, (scanNumber src s).tokens = s.tokens ++ [tk] ∧
      tk.column = s.startColumn ∧ tk.line = s.line ∧
      (scanNumber src s).line = s.line ∧
      (scanNumber src s).errors = s.errors ∧
      s.current ≤ (scanNumber src s).current := by
  obtain ⟨h1, h2, h3, h4, h5⟩ :=
    digitLoop_inv src (src.length - s.current) s
  unfold scanNumber
  dsimp only
  split
  · obtain ⟨g1, g2, g3, g4, g5⟩ :=
      digitLoop_inv src
        (src.length - (lexAdvance src (digitLoop src (src.length - s.current) s)).2.current)
        (lexAdvance src (digitLoop src (src.length - s.current) s)).2
    refine ⟨⟨.NUMBER,
            lexemeOf src
              (digitLoop src
                (src.length - (lexAdvance src (digitLoop src (src.length - s.current) s)).2.current)
                (lexAdvance src (digitLoop src (src.length - s.current) s)).2),
            (digitLoop src
              (src.length - (lexAdvance src (digitLoop src (src.length - s.current) s)).2.current)
              (lexAdvance src (digitLoop src (src.length - s.current) s)).2).line,
            (digitLoop src
              (src.length - (lexAdvance src (digitLoop src (src.length - s.current) s)).2.current)
              (lexAdvance src (digitLoop src (src.length - s.current) s)).2).startColumn⟩,
      by
        simp only [addTokenV]
        rw [g3,
          show (lexAdvance src (digitLoop src (src.length - s.current) s)).2.tokens =
            (digitLoop src (src.length - s.current) s).tokens from rfl, h3], g2.trans h2, g1.trans h1, g1.trans h1, g4.trans h4,
      le_trans h5 (le_trans (Nat.le_succ _) g5)⟩
  · exact ⟨⟨.NUMBER, lexemeOf src (digitLoop src (src.length - s.current) s),
            (digitLoop src (src.length - s.current) s).line,
            (digitLoop src (src.length - s.current) s).startColumn⟩,
      by simp [addTokenV, h3], h2, h1, h1, h4, h5⟩

theorem scanString_shape (src : List Char) (s : LexState) :
    s.current ≤ (scanString src s).current ∧
    ((scanString src s).tokens = s.tokens ∨
      ∃ tk, (scanString src s).tokens = s.tokens ++ [tk] ∧
        tk.column = s.startColumn ∧ tk.line = (scanString src s).line ∧
        tk.type = .STRING_LITERAL) := by
  obtain ⟨h1, h2, h3, h4, h5⟩ :=
    stringLoop_inv src (src.length - s.current) s
  unfold scanString
  dsimp only
  split
  · exact ⟨h5, Or.inl h2⟩
  · exact ⟨le_trans h5 (Nat.le_succ _),
      Or.inr ⟨⟨.STRING_LITERAL,
        String.mk (List.take
          ((lexAdvance src (stringLoop src (src.length - s.current) s)).2.current -
            (lexAdvance src (stringLoop src (src.length - s.current) s)).2.start - 2)
          (List.drop
            ((lexAdvance src (stringLoop src (src.length - s.current) s)).2.start + 1) src)),
        (lexAdvance src (stringLoop src (src.length - s.current) s)).2.line,
        (lexAdvance src (stringLoop src (src.length - s.current) s)).2.startColumn⟩,
        by
          simp only [addTokenV]
          rw [show (lexAdvance src (stringLoop src (src.length - s.current) s)).2.tokens =
            (stringLoop src (src.length - s.current) s).tokens from rfl, h2], h1, rfl, rfl⟩⟩

theorem scanTokSwitch_current (src : List Char) (c : Char) (s1 : LexState) :
    s1.current ≤ (scanTokSwitch src c s1).current := by
  unfold scanTokSwitch
  repeat' split
  all_goals first
  | exact le_refl _
  | exact (lexMatch_inv src s1 '=').2.2.2.2
  | exact (scanString_shape src s1).1
  | (obtain ⟨tk, _, _, _, _, _, hm⟩ := scanIdentifier_shape src s1
     exact hm)
  | (obtain ⟨tk, _, _, _, _, _, hm⟩ := scanNumber_shape src s1
     exact hm)

theorem scanTok_strict (src : List Char) (s : LexState) :
    s.current < (scanTok src s).current :=
  Nat.lt_of_lt_of_le (Nat.lt_succ_self _)
    (scanTokSwitch_current src (lexAdvance src s).1 (lexAdvance src s).2)

theorem scanTokSwitch_tokens (src : List Char) (c : Char) (s1 : LexState) :
    (scanTokSwitch src c s1).tokens = s1.tokens ∨
    ∃ tk, (scanTokSwitch src c s1).tokens = s1.tokens ++ [tk] ∧
      tk.column = s1.startColumn ∧
      tk.line = (scanTokSwitch src c s1).line ∧
      (tk.type ≠ .STRING_LITERAL → tk.line = s1.line) := by
  unfold scanTokSwitch
  repeat' split
  all_goals first
  | exact Or.inl rfl
  | exact Or.inr ⟨_, rfl, rfl, rfl, fun _ => rfl⟩
  | (obtain ⟨m1, m2, m3, m4, m5⟩ := lexMatch_inv src s1 '='
     first
     | exact Or.inl (by simp [lexReportError, m3])
     | exact Or.inr ⟨_, by simp only [addTokenV]; rw [m3], m2, rfl, fun _ => m1⟩
     | exact Or.inr ⟨_, by simp only [addTokenL]; rw [m3], m2, rfl, fun _ => m1⟩)
  | (rcases (scanString_shape src s1).2 with h | ⟨tk, ht, hc, hl, hty⟩
     · exact Or.inl h
     · exact Or.inr ⟨tk, ht, hc, hl, fun hne => absurd hty hne⟩)
  | (obtain ⟨tk, ht, hc, hl, hfl, _, _⟩ := scanIdentifier_shape src s1
     exact Or.inr ⟨tk, ht, hc, hl.trans hfl.symm, fun _ => hl⟩)
  | (obtain ⟨tk, ht, hc, hl, hfl, _, _⟩ := scanNumber_shape src s1
     exact Or.inr ⟨tk, ht, hc, hl.trans hfl.symm, fun _ => hl⟩)

theorem lexRun_atEnd (src : List Char) :
    ∀ gas s, src.length - s.current ≤ gas →
      lexAtEnd src (lexRun src gas s) = true := by
  intro gas
  induction gas with
  | zero =>
    intro s h
    simp only [lexRun, lexAtEnd, decide_eq_true_eq]
    omega
  | succ g ih =>
    intro s h
    rw [lexRun]
    split
    · assumption
    · next hne =>
      apply ih
      have hs := scanTok_strict src
        { s with start := s.current, startColumn := s.column }
      have hb : ({ s with start := s.current, startColumn := s.column } :
          LexState).current = s.current := rfl
      rw [hb] at hs
      simp only [lexAtEnd, decide_eq_true_eq] at hne
      omega

theorem tokenize_endToken (src : List Char) :
    ∃ t, (tokenize src).tokens.getLast? = some t ∧ t.type = .END_OF_INPUT := by
  unfold tokenize
  dsimp only
  exact ⟨_, List.getLast?_concat _, rfl⟩

/-- C4: tokenization always terminates and never aborts: every scanning
step — the error path included — strictly advances the cursor (first
conjunct, with no side condition), the scanning loop provably reaches
end-of-input within its iteration bound (second conjunct, which is the
termination argument for `Lexer::tokenize`), and the returned token
sequence always ends with the explicit end-of-input token (third
conjunct). -/
theorem c4_lexer_terminates :
    (∀ src (s : LexState), s.current < (scanTok src s).current) ∧
    (∀ src gas (s : LexState), src.length - s.current ≤ gas →
      lexAtEnd src (lexRun src gas s) = true) ∧
    (∀ src, ∃ t, (tokenize src).tokens.getLast? = some t ∧
      t.type = .END_OF_INPUT) :=
  ⟨scanTok_strict, lexRun_atEnd, tokenize_endToken⟩

/-- C4 witness: the three conjuncts at the concrete source `"@a"` (whose
first character takes the lexical-error path). -/
theorem c4_lexer_terminates_witness :
    (⟨0, 0, 1, 1, 1, [], []⟩ : LexState).current <
      (scanTok "@a".data ⟨0, 0, 1, 1, 1, [], []⟩).current ∧
    lexAtEnd "@a".data (lexRun "@a".data 2 ⟨0, 0, 1, 1, 1, [], []⟩) = true ∧
    ∃ t, (tokenize "@a".data).tokens.getLast? = some t ∧
      t.type = .END_OF_INPUT :=
  ⟨c4_lexer_terminates.1 "@a".data _,
   c4_lexer_terminates.2.1 "@a".data 2 _ (by decide),
   c4_lexer_terminates.2.2 "@a".data⟩

/-- C5 counterexample: the claim says every token records the line of its
*first* character.  For the five-character source `'a\nb'` (a string
literal spanning a newline, whose first character is on line 1) the
tokenizer emits the string token with `line = 2` — the line of its *last*
character — because `Lexer::addToken` reads the line counter only after the
token's characters (newline included) have been consumed. -/
theorem c5_position_counterexample :
    (tokenize "\x27a\nb\x27".data).tokens =
      [⟨.STRING_LITERAL, "a\nb", 2, 1⟩, ⟨.END_OF_INPUT, "", 2, 3⟩] := by
  decide

/-- C5 amended: every token produced by a scanning step (entered, as in
`Lexer::tokenize`, with `start`/`startColumn` marking the token start)
records the *column* of its first character, captured before the token's
characters are consumed; its recorded *line* is the value of the line
counter after the token's characters are consumed, which equals the line
of the token's first character for every token other than a string literal
spanning newlines. -/
theorem c5_token_positions (src : List Char) (s : LexState) :
    (scanTok src { s with start := s.current, startColumn := s.column }).tokens
        = s.tokens ∨
    ∃ tk,
      (scanTok src { s with start := s.current, startColumn := s.column }).tokens
          = s.tokens ++ [tk] ∧
      tk.column = s.column ∧
      tk.line =
        (scanTok src { s with start := s.current, startColumn := s.column }).line ∧
      (tk.type ≠ .STRING_LITERAL → tk.line = s.line) :=
  scanTokSwitch_tokens src
    (lexAdvance src { s with start := s.current, startColumn := s.column }).1
    (lexAdvance src { s with start := s.current, startColumn := s.column }).2

/-- C5 witness for the amended statement: the scanning step on `"ab"`
produces the identifier token anchored at line 1, column 1. -/
theorem c5_token_positions_witness :
    (scanTok "ab".data
        { (⟨0, 0, 1, 1, 1, [], []⟩ : LexState) with start := 0, startColumn := 1 }).tokens
      = ([] : List Token) ∨
    ∃ tk,
      (scanTok "ab".data
          { (⟨0, 0, 1, 1, 1, [], []⟩ : LexState) with start := 0, startColumn := 1 }).tokens
        = [] ++ [tk] ∧
      tk.column = 1 ∧
      tk.line =
        (scanTok "ab".data
          { (⟨0, 0, 1, 1, 1, [], []⟩ : LexState) with start := 0, startColumn := 1 }).line ∧
      (tk.type ≠ .STRING_LITERAL → tk.line = 1) :=
  c5_token_positions "ab".data ⟨0, 0, 1, 1, 1, [], []⟩

/-- C1: staged, non-overlapping error propagation in `compileAndExecute`:
(1) any lexical diagnostic leaves the syntax and semantic lists empty
(those stages never run); (2) any syntax diagnostic leaves the semantic
list empty (semantic analysis never runs); (3) semantic diagnostics do not
stop semantic analysis itself — one pass over
`SELECT ghost1, ghost2 FROM employees;` accumulates two semantic
diagnostics. -/
theorem c1_staged_error_propagation :
    (∀ src : List Char, (compileQuery src).lexErrors ≠ [] →
      (compileQuery src).synErrors = [] ∧ (compileQuery src).semErrors = []) ∧
    (∀ src : List Char, (compileQuery src).synErrors ≠ [] →
      (compileQuery src).semErrors = []) ∧
    (compileStr "SELECT ghost1, ghost2 FROM employees;").semErrors.length = 2 := by
  refine ⟨?_, ?_, by decide⟩
  · intro src h
    unfold compileQuery at h ⊢
    dsimp only at h ⊢
    by_cases hl : (!(tokenize src).errors.isEmpty) = true
    · rw [if_pos hl]
      exact ⟨rfl, rfl⟩
    · rw [if_neg hl] at h
      by_cases hp : (!(parseTokens (tokenize src).tokens).2.errors.isEmpty) = true
      · rw [if_pos hp] at h
        exact absurd rfl h
      · rw [if_neg hp] at h
        exact absurd rfl h
  · intro src h
    unfold compileQuery at h ⊢
    dsimp only at h ⊢
    by_cases hl : (!(tokenize src).errors.isEmpty) = true
    · rw [if_pos hl]
    · rw [if_neg hl] at h ⊢
      by_cases hp : (!(parseTokens (tokenize src).tokens).2.errors.isEmpty) = true
      · rw [if_pos hp]
      · rw [if_neg hp] at h
        exact absurd rfl h

/-- C1 witness: part (1) at the source `"@"` (one lexical diagnostic) and
part (2) at `"SELECT;"` (one syntax diagnostic). -/
theorem c1_staged_error_propagation_witness :
    ((compileQuery "@".data).lexErrors ≠ [] ∧
      (compileQuery "@".data).synErrors = [] ∧
      (compileQuery "@".data).semErrors = []) ∧
    ((compileQuery "SELECT;".data).synErrors ≠ [] ∧
      (compileQuery "SELECT;".data).semErrors = []) :=
  ⟨⟨by decide, c1_staged_error_propagation.1 "@".data (by decide)⟩,
   ⟨by decide, c1_staged_error_propagation.2.1 "SELECT;".data (by decide)⟩⟩

/-- C2 counterexample: the claim says a failed token expectation aborts the
production with a null tree, so at most one syntax diagnostic per
statement.  On `INSERT INTO employees (id) VALUES 1;` the two failed
`Parser::consume` calls (missing `(` after VALUES, missing `)` after the
value list) each record a diagnostic and parsing continues: the statement
yields two syntax diagnostics and a non-null tree. -/
theorem c2_consume_counterexample :
    (compileStr "INSERT INTO employees (id) VALUES 1;").synErrors.length = 2 ∧
    (compileStr "INSERT INTO employees (id) VALUES 1;").tree.isSome = true :=
  ⟨by decide, by decide⟩

/-- C2 amended: a failed expectation records a diagnostic
`message ++ " (found 'actual token text')"` anchored at the current token's
line and column.  At the explicit check sites the production then aborts
returning failure (second conjunct, shown for `parseCondition`); at
`Parser::consume` call sites the cursor does not move, an `UNKNOWN`
placeholder token is returned and the production continues (first
conjunct), so one statement can accumulate several syntax diagnostics and
return a non-null tree alongside them. -/
theorem c2_expected_token_diagnostic_format :
    (∀ toks (p : PState) ty msg, pCheck toks p ty = false →
      (pConsume toks p ty msg).2.errors = p.errors ++
        [⟨.SYNTAX_ERROR, msg ++ " (found \x27" ++ (pPeek toks p).value ++ "\x27)",
          (pPeek toks p).line, (pPeek toks p).column⟩] ∧
      (pConsume toks p ty msg).2.current = p.current ∧
      (pConsume toks p ty msg).1.type = .UNKNOWN) ∧
    (∀ toks (p : PState), pCheck toks p .IDENTIFIER = false →
      parseCondition toks p =
        (none, pError toks p "Expected column name in WHERE condition")) := by
  constructor
  · intro toks p ty msg h
    refine ⟨?_, ?_, ?_⟩ <;> simp [pConsume, pError, h]
  · intro toks p h
    unfold parseCondition
    simp [h]

/-- C2 witness for the amended statement: a `consume` of a semicolon
against a star token, and `parseCondition` at a star token. -/
theorem c2_expected_token_diagnostic_format_witness :
    (pCheck [⟨.OP_STAR, "*", 1, 1⟩, ⟨.END_OF_INPUT, "", 1, 2⟩] ⟨0, []⟩
        .OP_SEMICOLON = false ∧
      (pConsume [⟨.OP_STAR, "*", 1, 1⟩, ⟨.END_OF_INPUT, "", 1, 2⟩] ⟨0, []⟩
          .OP_SEMICOLON "msg").2.errors = [] ++
        [⟨.SYNTAX_ERROR,
          "msg" ++ " (found \x27" ++
            (pPeek [⟨.OP_STAR, "*", 1, 1⟩, ⟨.END_OF_INPUT, "", 1, 2⟩] ⟨0, []⟩).value ++
            "\x27)",
          (pPeek [⟨.OP_STAR, "*", 1, 1⟩, ⟨.END_OF_INPUT, "", 1, 2⟩] ⟨0, []⟩).line,
          (pPeek [⟨.OP_STAR, "*", 1, 1⟩, ⟨.END_OF_INPUT, "", 1, 2⟩] ⟨0, []⟩).column⟩] ∧
      (pConsume [⟨.OP_STAR, "*", 1, 1⟩, ⟨.END_OF_INPUT, "", 1, 2⟩] ⟨0, []⟩
          .OP_SEMICOLON "msg").2.current = 0 ∧
      (pConsume [⟨.OP_STAR, "*", 1, 1⟩, ⟨.END_OF_INPUT, "", 1, 2⟩] ⟨0, []⟩
          .OP_SEMICOLON "msg").1.type = .UNKNOWN) ∧
    (pCheck [⟨.OP_STAR, "*", 1, 1⟩, ⟨.END_OF_INPUT, "", 1, 2⟩] ⟨0, []⟩
        .IDENTIFIER = false ∧
      parseCondition [⟨.OP_STAR, "*", 1, 1⟩, ⟨.END_OF_INPUT, "", 1, 2⟩] ⟨0, []⟩ =
        (none, pError [⟨.OP_STAR, "*", 1, 1⟩, ⟨.END_OF_INPUT, "", 1, 2⟩] ⟨0, []⟩
          "Expected column name in WHERE condition")) :=
  ⟨⟨by decide,
    c2_expected_token_diagnostic_format.1 _ _ .OP_SEMICOLON "msg" (by decide)⟩,
   ⟨by decide,
    c2_expected_token_diagnostic_format.2 _ _ (by decide)⟩⟩

theorem all11_report (s : SemState) (m : String) :
    All11 s.errors → All11 (semReportError s m 1 1).errors := by
  intro h e he
  unfold semReportError at he
  dsimp only at he
  rcases List.mem_append.1 he with h1 | h1
  · exact h e h1
  · rcases List.mem_singleton.1 h1 with rfl
    exact ⟨rfl, rfl⟩

theorem all11_validateColumn (s : SemState) (c : String) :
    All11 s.errors → All11 (validateColumn s c 1 1).errors := by
  intro h
  unfold validateColumn
  dsimp only
  split
  · exact all11_report _ _ h
  · split
    · exact all11_report _ _ h
    · exact h

theorem all11_validateCondition (s : SemState) (node : ParseTreeNode) :
    All11 s.errors → All11 (validateCondition s node).errors := by
  intro h
  have hf : ∀ (cs : List ParseTreeNode) (acc : SemState × String × String × String),
      All11 acc.1.errors →
      All11 (cs.foldl
        (fun (acc : SemState × String × String × String) child =>
          match child.type with
          | .COLUMN =>
            (validateColumn acc.1 child.value 1 1, child.value, acc.2.2.1, acc.2.2.2)
          | .OPERATOR => (acc.1, acc.2.1, child.value, acc.2.2.2)
          | .VALUE => (acc.1, acc.2.1, acc.2.2.1, child.value)
          | _ => acc) acc).1.errors := by
    intro cs
    induction cs with
    | nil => intro acc ha; exact ha
    | cons c rest ih =>
      intro acc ha
      simp only [List.foldl_cons]
      apply ih
      cases hct : c.type <;> simp only
      case COLUMN => exact all11_validateColumn _ _ ha
      all_goals exact ha
  unfold validateCondition
  dsimp only
  split
  · split
    · split
      · split
        · exact hf _ _ h
        · exact hf _ _ h
      · exact hf _ _ h
    · exact hf _ _ h
  · exact hf _ _ h

theorem all11_validateFromClause (s : SemState) (node : ParseTreeNode) :
    All11 s.errors → All11 (validateFromClause s node).errors := by
  have hf : ∀ (cs : List ParseTreeNode) (s : SemState), All11 s.errors →
      All11 (cs.foldl
        (fun s child =>
          if child.type == .TABLE_NAME then
            let tableName := child.value
            let lowerTable := strLower tableName
            if !tableExists lowerTable then
              semReportError s
                ("Table \x27" ++ tableName ++ "\x27 does not exist. " ++
                 "Available tables: " ++ joinComma getTableNames) 1 1
            else { s with currentTable := lowerTable }
          else s) s).errors := by
    intro cs
    induction cs with
    | nil => intro s h; exact h
    | cons c rest ih =>
      intro s h
      simp only [List.foldl_cons]
      apply ih
      dsimp only
      split
      · split
        · exact all11_report _ _ h
        · exact h
      · exact h
  exact fun h => hf node.children s h

theorem all11_validateSelectClause (s : SemState) (node : ParseTreeNode) :
    All11 s.errors → All11 (validateSelectClause s node).errors := by
  have hg : ∀ (cs : List ParseTreeNode) (s : SemState), All11 s.errors →
      All11 (cs.foldl
        (fun s column =>
          if column.type == .COLUMN then
            if column.value == "*" then s
            else validateColumn s column.value 1 1
          else s) s).errors := by
    intro cs
    induction cs with
    | nil => intro s h; exact h
    | cons c rest ih =>
      intro s h
      simp only [List.foldl_cons]
      apply ih
      split
      · split
        · exact h
        · exact all11_validateColumn _ _ h
      · exact h
  have hf : ∀ (cs : List ParseTreeNode) (s : SemState), All11 s.errors →
      All11 (cs.foldl
        (fun s child =>
          if child.type == .COLUMN_LIST then
            child.children.foldl
              (fun s column =>
                if column.type == .COLUMN then
                  if column.value == "*" then s
                  else validateColumn s column.value 1 1
                else s) s
          else s) s).errors := by
    intro cs
    induction cs with
    | nil => intro s h; exact h
    | cons c rest ih =>
      intro s h
      simp only [List.foldl_cons]
      apply ih
      split
      · exact hg _ _ h
      · exact h
  exact fun h => hf node.children s h

theorem all11_validateWhereClause (s : SemState) (node : ParseTreeNode) :
    All11 s.errors → All11 (validateWhereClause s node).errors := by
  have hf : ∀ (cs : List ParseTreeNode) (s : SemState), All11 s.errors →
      All11 (cs.foldl
        (fun s child =>
          if child.type == .CONDITION then validateCondition s child else s)
        s).errors := by
    intro cs
    induction cs with
    | nil => intro s h; exact h
    | cons c rest ih =>
      intro s h
      simp only [List.foldl_cons]
      apply ih
      split
      · exact all11_validateCondition _ _ h
      · exact h
  exact fun h => hf node.children s h

theorem all11_validateQuery (s : SemState) (node : ParseTreeNode) :
    All11 s.errors → All11 (validateQuery s node).errors := by
  intro h
  unfold validateQuery
  dsimp only
  repeat' split
  all_goals first
  | exact h
  | exact all11_validateFromClause _ _ h
  | exact all11_validateSelectClause _ _ h
  | exact all11_validateSelectClause _ _ (all11_validateFromClause _ _ h)
  | exact all11_validateWhereClause _ _ h
  | exact all11_validateWhereClause _ _ (all11_validateFromClause _ _ h)
  | exact all11_validateWhereClause _ _ (all11_validateSelectClause _ _ h)
  | exact all11_validateWhereClause _ _
      (all11_validateSelectClause _ _ (all11_validateFromClause _ _ h))

theorem all11_insChildLoop :
    ∀ (cs : List ParseTreeNode) (s : SemState) (cols : List String) (vc : Nat),
      All11 s.errors → All11 (insChildLoop s cols vc cs).1.errors := by
  have hg : ∀ (cs : List ParseTreeNode) (acc : SemState × List String),
      All11 acc.1.errors →
      All11 (cs.foldl
        (fun (acc : SemState × List String) col =>
          if col.type == .COLUMN then
            (validateColumn acc.1 col.value 1 1, acc.2 ++ [col.value])
          else acc) acc).1.errors := by
    intro cs
    induction cs with
    | nil => intro acc h; exact h
    | cons c rest ih =>
      intro acc h
      simp only [List.foldl_cons]
      apply ih
      split
      · exact all11_validateColumn _ _ h
      · exact h
  intro cs
  induction cs with
  | nil => intro s cols vc h; exact h
  | cons c rest ih =>
    intro s cols vc h
    rw [insChildLoop]
    cases hct : c.type <;> simp only
    case TABLE_NAME =>
      split
      · exact all11_report _ _ h
      · exact ih _ _ _ h
    case COLUMN_LIST => exact ih _ _ _ (hg _ _ h)
    case VALUE_LIST => exact ih _ _ _ h
    all_goals exact ih _ _ _ h

theorem all11_validateInsert (s : SemState) (node : ParseTreeNode) :
    All11 s.errors → All11 (validateInsert s node).errors := by
  intro h
  unfold validateInsert
  dsimp only
  split
  · exact all11_insChildLoop _ _ _ _ h
  · split
    · exact all11_report _ _ (all11_insChildLoop _ _ _ _ h)
    · exact all11_insChildLoop _ _ _ _ h

theorem all11_updChildLoop :
    ∀ (cs : List ParseTreeNode) (s : SemState),
      All11 s.errors → All11 (updChildLoop s cs).errors := by
  have hg : ∀ (cs : List ParseTreeNode) (s : SemState), All11 s.errors →
      All11 (cs.foldl
        (fun s ac =>
          if ac.type == .COLUMN then validateColumn s ac.value 1 1 else s)
        s).errors := by
    intro cs
    induction cs with
    | nil => intro s h; exact h
    | cons c rest ih =>
      intro s h
      simp only [List.foldl_cons]
      apply ih
      split
      · exact all11_validateColumn _ _ h
      · exact h
  have hf : ∀ (cs : List ParseTreeNode) (s : SemState), All11 s.errors →
      All11 (cs.foldl
        (fun s assign =>
          if assign.type == .ASSIGNMENT then
            assign.children.foldl
              (fun s ac =>
                if ac.type == .COLUMN then validateColumn s ac.value 1 1 else s)
              s
          else s) s).errors := by
    intro cs
    induction cs with
    | nil => intro s h; exact h
    | cons c rest ih =>
      intro s h
      simp only [List.foldl_cons]
      apply ih
      split
      · exact hg _ _ h
      · exact h
  intro cs
  induction cs with
  | nil => intro s h; exact h
  | cons c rest ih =>
    intro s h
    rw [updChildLoop]
    cases hct : c.type <;> simp only
    case TABLE_NAME =>
      split
      · exact all11_report _ _ h
      · exact ih _ h
    case SET_CLAUSE => exact ih _ (hf _ _ h)
    case WHERE_CLAUSE => exact ih _ (all11_validateWhereClause _ _ h)
    all_goals exact ih _ h

theorem all11_validateDelete (s : SemState) (node : ParseTreeNode) :
    All11 s.errors → All11 (validateDelete s node).errors := by
  have hf : ∀ (cs : List ParseTreeNode) (s : SemState), All11 s.errors →
      All11 (cs.foldl
        (fun s child =>
          if child.type == .FROM_CLAUSE then validateFromClause s child
          else if child.type == .WHERE_CLAUSE then
            if s.currentTable != "" then validateWhereClause s child else s
          else s) s).errors := by
    intro cs
    induction cs with
    | nil => intro s h; exact h
    | cons c rest ih =>
      intro s h
      simp only [List.foldl_cons]
      apply ih
      split
      · exact all11_validateFromClause _ _ h
      · split
        · split
          · exact all11_validateWhereClause _ _ h
          · exact h
        · exact h
  exact fun h => hf node.children s h

/-- C10: every semantic diagnostic is anchored at line 1, column 1 — the
parse tree carries no token positions, `SemanticAnalyzer::reportError`
defaults to `(1, 1)`, and every call site passes the default (or literally
`1, 1`), for every statement kind. -/
theorem c10_semantic_errors_at_1_1 :
    ∀ (t : Option ParseTreeNode) (e : CompilerError),
      e ∈ (analyze t).2.errors → e.line = 1 ∧ e.column = 1 := by
  intro t
  have h0 : All11 semInit.errors := by intro e he; cases he
  show All11 (analyze t).2.errors
  unfold analyze
  cases t with
  | none => exact all11_report _ _ h0
  | some tr =>
    dsimp only
    split
    · exact all11_validateQuery _ _ h0
    · exact all11_validateInsert _ _ h0
    · exact all11_updChildLoop _ _ h0
    · exact all11_validateDelete _ _ h0
    · exact all11_report _ _ h0

/-- C10 witness: the unknown-column diagnostic for
`SELECT ghost FROM employees WHERE id = 1;` sits at line 1, column 1 (the
offending reference is at column 8 of the statement). -/
theorem c10_semantic_errors_at_1_1_witness :
    (analyze (compileStr "SELECT ghost FROM employees;").tree).2.errors
        = [⟨.SEMANTIC_ERROR,
            "Column \x27ghost\x27 does not exist in table \x27employees\x27. Available columns: id, name, age, salary, department",
            1, 1⟩] ∧
    (⟨.SEMANTIC_ERROR,
      "Column \x27ghost\x27 does not exist in table \x27employees\x27. Available columns: id, name, age, salary, department",
      1, 1⟩ : CompilerError).line = 1 ∧
    (⟨.SEMANTIC_ERROR,
      "Column \x27ghost\x27 does not exist in table \x27employees\x27. Available columns: id, name, age, salary, department",
      1, 1⟩ : CompilerError).column = 1 :=
  ⟨by decide,
   c10_semantic_errors_at_1_1
     (compileStr "SELECT ghost FROM employees;").tree _
     (by decide)⟩

/-- C9: for a WHERE condition whose column exists in the resolved table,
`validateCondition` leaves the diagnostic list unchanged for *every*
literal value — whether or not the advisory (numeric column compared with
a non-numeric-looking value) holds — so the soft type-compatibility check
never adds a diagnostic and never fails analysis.  The second conjunct
shows the advisory itself is live: on `salary > abc` it appends a warning
line while the diagnostic list stays empty, exactly as on the
well-typed `salary > 25`. -/
theorem c9_soft_type_check_is_advisory :
    (∀ (s : SemState) (c o v : String),
      columnExists s.currentTable (strLower c) = true →
      (validateCondition s (condNode c o v)).errors = s.errors) ∧
    ((validateCondition ⟨"employees", [], []⟩ (condNode "salary" ">" "abc")).errors
        = [] ∧
     (validateCondition ⟨"employees", [], []⟩ (condNode "salary" ">" "abc")).warnings
        ≠ [] ∧
     (validateCondition ⟨"employees", [], []⟩ (condNode "salary" ">" "25")).errors
        = [] ∧
     (validateCondition ⟨"employees", [], []⟩ (condNode "salary" ">" "25")).warnings
        = []) := by
  refine ⟨?_, by decide, by decide, by decide, by decide⟩
  intro s c o v hex
  have hne : (s.currentTable == "") = false := by
    cases hb : s.currentTable == ""
    · rfl
    · have he : s.currentTable = "" := eq_of_beq hb
      have h0 : columnExists "" (strLower c) = false := rfl
      rw [he, h0] at hex
      cases hex
  have hvc : validateColumn s c 1 1 = s := by
    unfold validateColumn
    dsimp only
    rw [hne]
    simp [hex]
  unfold validateCondition condNode
  dsimp only [ParseTreeNode.children, ParseTreeNode.type, ParseTreeNode.value]
  simp only [List.foldl_cons, List.foldl_nil]
  rw [hvc]
  repeat' split
  all_goals rfl

/-- C9 witness: the universal part at the `employees.salary` column with a
non-numeric comparison value. -/
theorem c9_soft_type_check_is_advisory_witness :
    columnExists "employees" (strLower "salary") = true ∧
    (validateCondition ⟨"employees", [], []⟩
        (condNode "salary" "=" "xyz")).errors = [] :=
  ⟨by decide,
   c9_soft_type_check_is_advisory.1 ⟨"employees", [], []⟩ "salary" "=" "xyz"
     (by decide)⟩

/-- C6: for every table name T in the Schema Catalog, the full pipeline on
`SELECT * FROM T;`, on the same statement with T upper-cased, and with T
lower-cased, resolves to the same catalog table (the analyzer's final
current table is the stored name) and succeeds with no diagnostics of any
category. -/
theorem c6_table_resolution_case_insensitive :
    ∀ t ∈ schemaTables, ∀ q ∈ [t.name, strUpper t.name, strLower t.name],
      (compileStr ("SELECT * FROM " ++ q ++ ";")).semTable = t.name ∧
      (compileStr ("SELECT * FROM " ++ q ++ ";")).lexErrors = [] ∧
      (compileStr ("SELECT * FROM " ++ q ++ ";")).synErrors = [] ∧
      (compileStr ("SELECT * FROM " ++ q ++ ";")).semErrors = [] ∧
      (compileStr ("SELECT * FROM " ++ q ++ ";")).semValid = true := by
  intro t ht q hq
  fin_cases ht <;> fin_cases hq <;> decide

/-- C6 witness: the `employees` table in its upper-cased spelling. -/
theorem c6_table_resolution_case_insensitive_witness :
    (compileStr ("SELECT * FROM " ++
        strUpper "employees" ++ ";")).semTable = "employees" ∧
    (compileStr ("SELECT * FROM " ++ strUpper "employees" ++ ";")).lexErrors = [] ∧
    (compileStr ("SELECT * FROM " ++ strUpper "employees" ++ ";")).synErrors = [] ∧
    (compileStr ("SELECT * FROM " ++ strUpper "employees" ++ ";")).semErrors = [] ∧
    (compileStr ("SELECT * FROM " ++ strUpper "employees" ++ ";")).semValid = true :=
  c6_table_resolution_case_insensitive
    ⟨"employees",
     [⟨"id", "INT"⟩, ⟨"name", "VARCHAR"⟩, ⟨"age", "INT"⟩,
      ⟨"salary", "FLOAT"⟩, ⟨"department", "VARCHAR"⟩]⟩
    (by decide) (strUpper "employees") (by decide)

/-- C8 counterexample: the claim says the "table does not exist" diagnostic
lists the known table names uniformly for all four statement kinds.  For
`INSERT INTO ghost (id) VALUES (1);` the emitted message is exactly
`Table 'ghost' does not exist.` — it mentions no catalog table name at all
(`validateInsert` builds the short message, unlike `validateFromClause`). -/
theorem c8_insert_message_counterexample :
    (compileStr "INSERT INTO ghost (id) VALUES (1);").semErrors =
      [⟨.SEMANTIC_ERROR, "Table \x27ghost\x27 does not exist.", 1, 1⟩] ∧
    (∀ n ∈ getTableNames,
      listHas n.data "Table \x27ghost\x27 does not exist.".data = false) :=
  ⟨by decide, by decide⟩

/-- C8 amended: for every statement kind the table reference is resolved
before any column check; when resolution fails the analyzer emits exactly
one "table does not exist" semantic diagnostic and checks no column
reference (the diagnostic list is exactly that singleton, whatever the
column/assignment/where material is).  The message lists the known table
names on the SELECT and DELETE paths (`validateFromClause`) but not on the
INSERT and UPDATE paths, which emit the short form. -/
theorem c8_unresolved_table_skips_columns :
    (∀ (sc : ParseTreeNode) (tn : String), sc.type = .SELECT_CLAUSE →
      tableExists (strLower tn) = false →
      (analyze (some (.mk .QUERY ""
        [sc, .mk .FROM_CLAUSE "FROM" [.mk .TABLE_NAME tn []]]))).2.errors
        = [tableErrListed tn]) ∧
    (∀ (sc wc : ParseTreeNode) (tn : String), sc.type = .SELECT_CLAUSE →
      wc.type = .WHERE_CLAUSE →
      tableExists (strLower tn) = false →
      (analyze (some (.mk .QUERY ""
        [sc, .mk .FROM_CLAUSE "FROM" [.mk .TABLE_NAME tn []], wc]))).2.errors
        = [tableErrListed tn]) ∧
    (∀ (tn : String) (rest : List ParseTreeNode),
      tableExists (strLower tn) = false →
      (analyze (some (.mk .INSERT_QUERY ""
        (.mk .TABLE_NAME tn [] :: rest)))).2.errors = [tableErrShort tn]) ∧
    (∀ (tn : String) (rest : List ParseTreeNode),
      tableExists (strLower tn) = false →
      (analyze (some (.mk .UPDATE_QUERY ""
        (.mk .TABLE_NAME tn [] :: rest)))).2.errors = [tableErrShort tn]) ∧
    (∀ (tn : String), tableExists (strLower tn) = false →
      (analyze (some (.mk .DELETE_QUERY ""
        [.mk .FROM_CLAUSE "FROM" [.mk .TABLE_NAME tn []]]))).2.errors
        = [tableErrListed tn]) ∧
    (∀ (wc : ParseTreeNode) (tn : String), wc.type = .WHERE_CLAUSE →
      tableExists (strLower tn) = false →
      (analyze (some (.mk .DELETE_QUERY ""
        [.mk .FROM_CLAUSE "FROM" [.mk .TABLE_NAME tn []], wc]))).2.errors
        = [tableErrListed tn]) := by
  refine ⟨?_, ?_, ?_, ?_, ?_, ?_⟩
  · intro sc tn hsc hex
    obtain ⟨ty, v, cs⟩ := sc
    simp only [ParseTreeNode.type] at hsc
    subst hsc
    unfold analyze validateQuery findClauses validateFromClause
    dsimp only [ParseTreeNode.type, ParseTreeNode.children]
    simp only [List.foldl_cons, List.foldl_nil]
    dsimp only
    simp [ParseTreeNode.value, hex, tableErrListed, semReportError, semInit]
  · intro sc wc tn hsc hwc hex
    obtain ⟨ty, v, cs⟩ := sc
    simp only [ParseTreeNode.type] at hsc
    subst hsc
    obtain ⟨wty, wv, wcs⟩ := wc
    simp only [ParseTreeNode.type] at hwc
    subst hwc
    unfold analyze validateQuery findClauses validateFromClause
    dsimp only [ParseTreeNode.type, ParseTreeNode.children]
    simp only [List.foldl_cons, List.foldl_nil]
    dsimp only
    simp [ParseTreeNode.value, hex, tableErrListed, semReportError, semInit]
  · intro tn rest hex
    unfold analyze validateInsert
    dsimp only [ParseTreeNode.type, ParseTreeNode.children]
    rw [insChildLoop]
    dsimp only [ParseTreeNode.type, ParseTreeNode.value]
    simp [hex, tableErrShort, semReportError, semInit]
  · intro tn rest hex
    unfold analyze validateUpdate
    dsimp only [ParseTreeNode.type, ParseTreeNode.children]
    rw [updChildLoop]
    dsimp only [ParseTreeNode.type, ParseTreeNode.value]
    simp [hex, tableErrShort, semReportError, semInit]
  · intro tn hex
    unfold analyze validateDelete validateFromClause
    dsimp only [ParseTreeNode.type, ParseTreeNode.children]
    simp only [List.foldl_cons, List.foldl_nil]
    dsimp only
    simp [ParseTreeNode.value, hex, tableErrListed, semReportError, semInit]
  · intro wc tn hwc hex
    obtain ⟨wty, wv, wcs⟩ := wc
    simp only [ParseTreeNode.type] at hwc
    subst hwc
    unfold analyze validateDelete validateFromClause
    dsimp only [ParseTreeNode.type, ParseTreeNode.children]
    simp only [List.foldl_cons, List.foldl_nil]
    dsimp only
    simp [ParseTreeNode.value, hex, tableErrListed, semReportError, semInit]

/-- C8 witness: the six amended conjuncts at the unknown table `ghost`,
with concrete SELECT/WHERE clause nodes and concrete INSERT/UPDATE child
material. -/
theorem c8_unresolved_table_skips_columns_witness :
    ((ParseTreeNode.mk .SELECT_CLAUSE "SELECT" []).type = .SELECT_CLAUSE ∧
      tableExists (strLower "ghost") = false) ∧
    ((analyze (some (.mk .QUERY ""
        [.mk .SELECT_CLAUSE "SELECT" [],
         .mk .FROM_CLAUSE "FROM" [.mk .TABLE_NAME "ghost" []]]))).2.errors
      = [tableErrListed "ghost"]) ∧
    ((analyze (some (.mk .QUERY ""
        [.mk .SELECT_CLAUSE "SELECT" [],
         .mk .FROM_CLAUSE "FROM" [.mk .TABLE_NAME "ghost" []],
         .mk .WHERE_CLAUSE "WHERE" []]))).2.errors = [tableErrListed "ghost"]) ∧
    ((analyze (some (.mk .INSERT_QUERY ""
        [.mk .TABLE_NAME "ghost" []]))).2.errors = [tableErrShort "ghost"]) ∧
    ((analyze (some (.mk .UPDATE_QUERY ""
        [.mk .TABLE_NAME "ghost" []]))).2.errors = [tableErrShort "ghost"]) ∧
    ((analyze (some (.mk .DELETE_QUERY ""
        [.mk .FROM_CLAUSE "FROM" [.mk .TABLE_NAME "ghost" []]]))).2.errors
      = [tableErrListed "ghost"]) ∧
    ((analyze (some (.mk .DELETE_QUERY ""
        [.mk .FROM_CLAUSE "FROM" [.mk .TABLE_NAME "ghost" []],
         .mk .WHERE_CLAUSE "WHERE" []]))).2.errors = [tableErrListed "ghost"]) :=
  ⟨⟨by decide, by decide⟩,
   c8_unresolved_table_skips_columns.1 _ "ghost" (by decide) (by decide),
   c8_unresolved_table_skips_columns.2.1 _ _ "ghost" (by decide) (by decide)
     (by decide),
   c8_unresolved_table_skips_columns.2.2.1 "ghost" [] (by decide),
   c8_unresolved_table_skips_columns.2.2.2.1 "ghost" [] (by decide),
   c8_unresolved_table_skips_columns.2.2.2.2.1 "ghost" (by decide),
   c8_unresolved_table_skips_columns.2.2.2.2.2 _ "ghost" (by decide) (by decide)⟩

theorem colListLoop_shape (toks : List Token) :
    ∀ gas (p : PState) acc t p',
      colListLoop toks gas p acc = (some t, p') →
      ∃ extra, t = .mk .COLUMN_LIST "" (acc ++ extra) ∧
        ∀ c ∈ extra, ∃ v, c = .mk .COLUMN v [] := by
  intro gas
  induction gas with
  | zero =>
    intro p acc t p' h
    rw [colListLoop] at h
    simp only [Prod.mk.injEq, Option.some.injEq] at h
    exact ⟨[], by simp [h.1.symm], by simp⟩
  | succ g ih =>
    intro p acc t p' h
    rw [colListLoop] at h
    split at h
    · simp only [Prod.mk.injEq, Option.some.injEq] at h
      exact ⟨[], by simp [h.1.symm], by simp⟩
    · split at h
      · simp at h
      · dsimp only at h
        obtain ⟨extra, he, hm⟩ := ih _ _ _ _ h
        refine ⟨.mk .COLUMN (pAdvance toks (pMatch toks p .OP_COMMA).2).1.value []
            :: extra, by simp [he], ?_⟩
        intro c hc
        rcases List.mem_cons.1 hc with rfl | hc
        · exact ⟨(pAdvance toks (pMatch toks p .OP_COMMA).2).1.value, rfl⟩
        · exact hm c hc

theorem valListLoop_shape (toks : List Token) :
    ∀ gas (p : PState) acc t p',
      valListLoop toks gas p acc = (some t, p') →
      ∃ extra, t = .mk .VALUE_LIST "" (acc ++ extra) ∧
        ∀ c ∈ extra, ∃ v, c = .mk .VALUE v [] := by
  intro gas
  induction gas with
  | zero =>
    intro p acc t p' h
    rw [valListLoop] at h
    simp only [Prod.mk.injEq, Option.some.injEq] at h
    exact ⟨[], by simp [h.1.symm], by simp⟩
  | succ g ih =>
    intro p acc t p' h
    rw [valListLoop] at h
    split at h
    · simp only [Prod.mk.injEq, Option.some.injEq] at h
      exact ⟨[], by simp [h.1.symm], by simp⟩
    · split at h
      · simp at h
      · dsimp only at h
        obtain ⟨extra, he, hm⟩ := ih _ _ _ _ h
        refine ⟨.mk .VALUE (pAdvance toks (pMatch toks p .OP_COMMA).2).1.value []
            :: extra, by simp [he], ?_⟩
        intro c hc
        rcases List.mem_cons.1 hc with rfl | hc
        · exact ⟨(pAdvance toks (pMatch toks p .OP_COMMA).2).1.value, rfl⟩
        · exact hm c hc

theorem parseColumnList_shape (toks : List Token) (p : PState)
    (t : ParseTreeNode) (p' : PState) :
    parseColumnList toks p = (some t, p') →
    ∃ l, t = .mk .COLUMN_LIST "" l ∧ l ≠ [] ∧
      ∀ c ∈ l, ∃ v, c = .mk .COLUMN v [] := by
  intro h
  rw [parseColumnList] at h
  split at h
  · simp only [Prod.mk.injEq, Option.some.injEq] at h
    refine ⟨[.mk .COLUMN "*" []], h.1.symm, by simp, ?_⟩
    intro c hc
    rcases List.mem_singleton.1 hc with rfl
    exact ⟨"*", rfl⟩
  · split at h
    · simp at h
    · dsimp only at h
      obtain ⟨extra, he, hm⟩ := colListLoop_shape toks _ _ _ _ _ h
      refine ⟨_, he, by simp, ?_⟩
      intro c hc
      rcases List.mem_cons.1 (by simpa using hc) with rfl | hc
      · exact ⟨_, rfl⟩
      · exact hm c hc

theorem parseValueList_shape (toks : List Token) (p : PState)
    (t : ParseTreeNode) (p' : PState) :
    parseValueList toks p = (some t, p') →
    ∃ l, t = .mk .VALUE_LIST "" l ∧ l ≠ [] ∧
      ∀ c ∈ l, ∃ v, c = .mk .VALUE v [] := by
  intro h
  rw [parseValueList] at h
  split at h
  · simp at h
  · dsimp only at h
    obtain ⟨extra, he, hm⟩ := valListLoop_shape toks _ _ _ _ _ h
    refine ⟨_, he, by simp, ?_⟩
    intro c hc
    rcases List.mem_cons.1 (by simpa using hc) with rfl | hc
    · exact ⟨_, rfl⟩
    · exact hm c hc

theorem parseFromClause_shape (toks : List Token) (p : PState)
    (t : ParseTreeNode) (p' : PState) :
    parseFromClause toks p = (some t, p') →
    ∃ tn, t = .mk .FROM_CLAUSE "FROM" [.mk .TABLE_NAME tn []] := by
  intro h
  rw [parseFromClause] at h
  split at h
  · simp at h
  · split at h
    · simp at h
    · dsimp only at h
      simp only [Prod.mk.injEq, Option.some.injEq] at h
      exact ⟨_, h.1.symm⟩

theorem parseCondition_shape (toks : List Token) (p : PState)
    (t : ParseTreeNode) (p' : PState) :
    parseCondition toks p = (some t, p') →
    ∃ c o v, t = condNode c o v := by
  intro h
  rw [parseCondition] at h
  split at h
  · simp at h
  · dsimp only at h
    split at h
    · simp at h
    · split at h
      · simp at h
      · simp only [Prod.mk.injEq, Option.some.injEq] at h
        exact ⟨_, _, _, h.1.symm⟩

theorem parseWhereClause_shape (toks : List Token) (p : PState)
    (t : ParseTreeNode) (p' : PState) :
    parseWhereClause toks p = (some t, p') →
    ∃ c o v, t = .mk .WHERE_CLAUSE "WHERE" [condNode c o v] := by
  intro h
  rw [parseWhereClause] at h
  split at h
  · simp at h
  · split at h
    · next cnd p2 heq =>
      obtain ⟨c, o, v, rfl⟩ := parseCondition_shape toks _ _ _ heq
      simp only [Prod.mk.injEq, Option.some.injEq] at h
      exact ⟨c, o, v, h.1.symm⟩
    · simp at h

theorem parseSelectClause_shape (toks : List Token) (p : PState)
    (t : ParseTreeNode) (p' : PState) :
    parseSelectClause toks p = (some t, p') →
    ∃ l, t = .mk .SELECT_CLAUSE "SELECT" [.mk .COLUMN_LIST "" l] ∧ l ≠ [] ∧
      ∀ c ∈ l, ∃ v, c = .mk .COLUMN v [] := by
  intro h
  rw [parseSelectClause] at h
  split at h
  · simp at h
  · split at h
    · next cl p2 heq =>
      obtain ⟨l, rfl, hne, hm⟩ := parseColumnList_shape toks _ _ _ heq
      simp only [Prod.mk.injEq, Option.some.injEq] at h
      exact ⟨l, h.1.symm, hne, hm⟩
    · simp at h

theorem parseInsert_shape (toks : List Token) (p : PState)
    (t : ParseTreeNode) (p' : PState) :
    parseInsert toks p = (some t, p') →
    ∃ tn cols vals, t = insertShape tn cols vals ∧ cols ≠ [] ∧ vals ≠ [] ∧
      (∀ c ∈ cols, ∃ v, c = .mk .COLUMN v []) ∧
      (∀ c ∈ vals, ∃ v, c = .mk .VALUE v []) := by
  intro h
  rw [parseInsert] at h
  split at h
  · simp at h
  · dsimp only at h
    split at h
    · simp at h
    · split at h
      · simp at h
      · split at h
        · simp at h
        · split at h
          · simp at h
          · next cl p6 heq =>
            obtain ⟨extra, rfl, hm⟩ := colListLoop_shape toks _ _ _ _ _ heq
            split at h
            · simp at h
            · split at h
              · simp at h
              · next vl p10 heq2 =>
                obtain ⟨l2, rfl, hne2, hm2⟩ := parseValueList_shape toks _ _ _ heq2
                simp only [Prod.mk.injEq, Option.some.injEq] at h
                refine ⟨_, _, _, h.1.symm, by simp, hne2, ?_, hm2⟩
                intro c hc
                rcases List.mem_cons.1 (by simpa using hc) with rfl | hc
                · exact ⟨_, rfl⟩
                · exact hm c hc

theorem parseUpdate_shape (toks : List Token) (p : PState)
    (t : ParseTreeNode) (p' : PState) :
    parseUpdate toks p = (some t, p') →
    ∃ tn sc sv rest,
      t = .mk .UPDATE_QUERY ""
        (.mk .TABLE_NAME tn [] ::
         .mk .SET_CLAUSE "SET"
           [.mk .ASSIGNMENT "" [.mk .COLUMN sc [], .mk .VALUE sv []]] :: rest) ∧
      (rest = [] ∨ ∃ c o v, rest = [.mk .WHERE_CLAUSE "WHERE" [condNode c o v]]) := by
  intro h
  rw [parseUpdate] at h
  split at h
  · simp at h
  · split at h
    · simp at h
    · dsimp only at h
      split at h
      · simp at h
      · split at h
        · simp at h
        · split at h
          · simp at h
          · split at h
            · split at h
              · next wc p7 heq =>
                obtain ⟨c, o, v, rfl⟩ := parseWhereClause_shape toks _ _ _ heq
                simp only [Prod.mk.injEq, Option.some.injEq] at h
                exact ⟨_, _, _, _, h.1.symm, Or.inr ⟨c, o, v, rfl⟩⟩
              · simp at h
            · simp only [Prod.mk.injEq, Option.some.injEq] at h
              exact ⟨_, _, _, _, h.1.symm, Or.inl rfl⟩

theorem parseDelete_shape (toks : List Token) (p : PState)
    (t : ParseTreeNode) (p' : PState) :
    parseDelete toks p = (some t, p') →
    ∃ tn rest,
      t = .mk .DELETE_QUERY ""
        (.mk .FROM_CLAUSE "FROM" [.mk .TABLE_NAME tn []] :: rest) ∧
      (rest = [] ∨ ∃ c o v, rest = [.mk .WHERE_CLAUSE "WHERE" [condNode c o v]]) := by
  intro h
  rw [parseDelete] at h
  split at h
  · simp at h
  · split at h
    · simp at h
    · next fc p2 heq =>
      obtain ⟨tn, rfl⟩ := parseFromClause_shape toks _ _ _ heq
      split at h
      · split at h
        · next wc p3 heq2 =>
          obtain ⟨c, o, v, rfl⟩ := parseWhereClause_shape toks _ _ _ heq2
          simp only [Prod.mk.injEq, Option.some.injEq] at h
          exact ⟨tn, _, h.1.symm, Or.inr ⟨c, o, v, rfl⟩⟩
        · simp at h
      · simp only [Prod.mk.injEq, Option.some.injEq] at h
        exact ⟨tn, _, h.1.symm, Or.inl rfl⟩

theorem wf_listNode (ty : NodeType) (v : String) (l : List ParseTreeNode)
    (h1 : ty ≠ .CONDITION) (h2 : ty ≠ .WHERE_CLAUSE)
    (hm : ∀ c ∈ l, WfTree c) : WfTree (.mk ty v l) :=
  .node ty v l (fun h => absurd h h1) (fun h => absurd h h2) hm

theorem wf_leaf (ty : NodeType) (v : String) (h1 : ty ≠ .CONDITION)
    (h2 : ty ≠ .WHERE_CLAUSE) : WfTree (.mk ty v []) :=
  wf_listNode ty v [] h1 h2 (fun c hc => absurd hc (List.not_mem_nil c))

theorem wf_condNode (c o v : String) : WfTree (condNode c o v) :=
  .node _ _ _ (fun _ => rfl) (fun h => absurd h (by decide))
    (fun x hx => by
      rcases List.mem_cons.1 hx with rfl | hx
      · exact wf_leaf _ _ (by decide) (by decide)
      rcases List.mem_cons.1 hx with rfl | hx
      · exact wf_leaf _ _ (by decide) (by decide)
      · rcases List.mem_singleton.1 hx with rfl
        exact wf_leaf _ _ (by decide) (by decide))

theorem wf_whereClause (c o v : String) :
    WfTree (.mk .WHERE_CLAUSE "WHERE" [condNode c o v]) :=
  .node _ _ _ (fun h => absurd h (by decide))
    (fun _ => ⟨condNode c o v, rfl, rfl⟩)
    (fun x hx => by
      rcases List.mem_singleton.1 hx with rfl
      exact wf_condNode c o v)

theorem wf_colList (l : List ParseTreeNode)
    (hm : ∀ c ∈ l, ∃ v, c = .mk .COLUMN v []) :
    WfTree (.mk .COLUMN_LIST "" l) :=
  wf_listNode _ _ _ (by decide) (by decide) (fun c hc => by
    obtain ⟨v, rfl⟩ := hm c hc
    exact wf_leaf _ _ (by decide) (by decide))

theorem wf_valList (l : List ParseTreeNode)
    (hm : ∀ c ∈ l, ∃ v, c = .mk .VALUE v []) :
    WfTree (.mk .VALUE_LIST "" l) :=
  wf_listNode _ _ _ (by decide) (by decide) (fun c hc => by
    obtain ⟨v, rfl⟩ := hm c hc
    exact wf_leaf _ _ (by decide) (by decide))

/-- C3: every AST root the syntax analyzer returns satisfies the
structural invariants: the top-level node is one of the four Query kinds,
every Condition node has exactly the three children Column, Operator,
Value in that order, and every WhereClause node has exactly one Condition
child (`WfTree` states the last two recursively for the whole tree). -/
theorem c3_ast_structural_invariants :
    ∀ toks (p : PState) t, (parseQuery toks p).1 = some t →
      isQueryKind t.type = true ∧ WfTree t := by
  intro toks p t h1
  have h : parseQuery toks p = (some t, (parseQuery toks p).2) := by
    rw [← h1]
  rw [parseQuery] at h
  split at h
  · -- INSERT dispatch
    obtain ⟨tn, cols, vals, rfl, hc, hv, hmc, hmv⟩ := parseInsert_shape toks _ _ _ h
    refine ⟨rfl, wf_listNode _ _ _ (by decide) (by decide) ?_⟩
    intro c hc'
    rcases List.mem_cons.1 hc' with rfl | hc'
    · exact wf_leaf _ _ (by decide) (by decide)
    rcases List.mem_cons.1 hc' with rfl | hc'
    · exact wf_colList _ hmc
    · rcases List.mem_singleton.1 hc' with rfl
      exact wf_valList _ hmv
  · split at h
    · -- UPDATE dispatch
      obtain ⟨tn, sc, sv, rest, rfl, hrest⟩ := parseUpdate_shape toks _ _ _ h
      refine ⟨rfl, wf_listNode _ _ _ (by decide) (by decide) ?_⟩
      intro c hc
      rcases List.mem_cons.1 hc with rfl | hc
      · exact wf_leaf _ _ (by decide) (by decide)
      rcases List.mem_cons.1 hc with rfl | hc
      · refine wf_listNode _ _ _ (by decide) (by decide) ?_
        intro a ha
        rcases List.mem_singleton.1 ha with rfl
        refine wf_listNode _ _ _ (by decide) (by decide) ?_
        intro b hb
        rcases List.mem_cons.1 hb with rfl | hb
        · exact wf_leaf _ _ (by decide) (by decide)
        · rcases List.mem_singleton.1 hb with rfl
          exact wf_leaf _ _ (by decide) (by decide)
      · rcases hrest with rfl | ⟨c2, o, v, rfl⟩
        · cases hc
        · rcases List.mem_singleton.1 hc with rfl
          exact wf_whereClause c2 o v
    · split at h
      · -- DELETE dispatch
        obtain ⟨tn, rest, rfl, hrest⟩ := parseDelete_shape toks _ _ _ h
        refine ⟨rfl, wf_listNode _ _ _ (by decide) (by decide) ?_⟩
        intro c hc
        rcases List.mem_cons.1 hc with rfl | hc
        · refine wf_listNode _ _ _ (by decide) (by decide) ?_
          intro a ha
          rcases List.mem_singleton.1 ha with rfl
          exact wf_leaf _ _ (by decide) (by decide)
        · rcases hrest with rfl | ⟨c2, o, v, rfl⟩
          · cases hc
          · rcases List.mem_singleton.1 hc with rfl
            exact wf_whereClause c2 o v
      · -- default: SELECT statement
        split at h
        · simp at h
        · next scN p1 heqS =>
          obtain ⟨l, rfl, hne, hm⟩ := parseSelectClause_shape toks _ _ _ heqS
          split at h
          · simp at h
          · next fcN p2 heqF =>
            obtain ⟨tn, rfl⟩ := parseFromClause_shape toks _ _ _ heqF
            have wfSel :
                WfTree (.mk .SELECT_CLAUSE "SELECT" [.mk .COLUMN_LIST "" l]) := by
              refine wf_listNode _ _ _ (by decide) (by decide) ?_
              intro a ha
              rcases List.mem_singleton.1 ha with rfl
              exact wf_colList _ hm
            have wfFrom :
                WfTree (.mk .FROM_CLAUSE "FROM" [.mk .TABLE_NAME tn []]) := by
              refine wf_listNode _ _ _ (by decide) (by decide) ?_
              intro a ha
              rcases List.mem_singleton.1 ha with rfl
              exact wf_leaf _ _ (by decide) (by decide)
            split at h
            · split at h
              · simp at h
              · next wcN p3 heqW =>
                obtain ⟨c, o, v, rfl⟩ := parseWhereClause_shape toks _ _ _ heqW
                dsimp only at h
                simp only [Prod.mk.injEq, Option.some.injEq] at h
                obtain ⟨heq, -⟩ := h
                subst heq
                refine ⟨rfl, wf_listNode _ _ _ (by decide) (by decide) ?_⟩
                intro c1 hc1
                rcases List.mem_cons.1 hc1 with rfl | hc1
                · exact wfSel
                rcases List.mem_cons.1 hc1 with rfl | hc1
                · exact wfFrom
                · rcases List.mem_singleton.1 hc1 with rfl
                  exact wf_whereClause c o v
            · dsimp only at h
              simp only [Prod.mk.injEq, Option.some.injEq] at h
              obtain ⟨heq, -⟩ := h
              subst heq
              refine ⟨rfl, wf_listNode _ _ _ (by decide) (by decide) ?_⟩
              intro c1 hc1
              rcases List.mem_cons.1 hc1 with rfl | hc1
              · exact wfSel
              · rcases List.mem_singleton.1 hc1 with rfl
                exact wfFrom

/-- C3 witness: the parse of `SELECT * FROM employees WHERE age > 25;`
produces a Query root satisfying the structural invariants. -/
theorem c3_ast_structural_invariants_witness :
    isQueryKind (ParseTreeNode.mk .QUERY ""
      [.mk .SELECT_CLAUSE "SELECT" [.mk .COLUMN_LIST "" [.mk .COLUMN "*" []]],
       .mk .FROM_CLAUSE "FROM" [.mk .TABLE_NAME "employees" []],
       .mk .WHERE_CLAUSE "WHERE" [.mk .CONDITION ""
         [.mk .COLUMN "age" [], .mk .OPERATOR ">" [],
          .mk .VALUE "25" []]]]).type = true ∧
    WfTree (ParseTreeNode.mk .QUERY ""
      [.mk .SELECT_CLAUSE "SELECT" [.mk .COLUMN_LIST "" [.mk .COLUMN "*" []]],
       .mk .FROM_CLAUSE "FROM" [.mk .TABLE_NAME "employees" []],
       .mk .WHERE_CLAUSE "WHERE" [.mk .CONDITION ""
         [.mk .COLUMN "age" [], .mk .OPERATOR ">" [],
          .mk .VALUE "25" []]]]) :=
  c3_ast_structural_invariants
    (tokenize "SELECT * FROM employees WHERE age > 25;".data).tokens
    ⟨0, []⟩ _ rfl

theorem colPrefix_ne_arityPrefix (x y : String) :
    "Column \x27" ++ x ≠ "Column count (" ++ y := by
  intro h
  have hd := congrArg String.data h
  rw [String.data_append, String.data_append] at hd
  have h8 := congrArg (List.take 8) hd
  have e1 : ("Column \x27".data ++ x.data).take 8 = "Column \x27".data := rfl
  have e2 : ("Column count (".data ++ y.data).take 8 = "Column c".data := rfl
  rw [e1, e2] at h8
  exact absurd h8 (by decide)

theorem validateColumn_cases (s : SemState) (c : String)
    (hct : s.currentTable ≠ "") :
    validateColumn s c 1 1 = s ∨
    ∃ rest, validateColumn s c 1 1 =
      { s with errors := s.errors ++
          [⟨.SEMANTIC_ERROR, "Column \x27" ++ rest, 1, 1⟩] } := by
  unfold validateColumn
  dsimp only
  rw [show (s.currentTable == "") = false by simp [hct]]
  simp only [Bool.false_eq_true, if_false]
  split
  · exact Or.inr ⟨_, rfl⟩
  · exact Or.inl rfl

theorem insColFold_shape :
    ∀ (cols : List ParseTreeNode) (acc : SemState × List String),
      acc.1.currentTable ≠ "" →
      (∀ c ∈ cols, ∃ v, c = .mk .COLUMN v []) →
      ∃ E, (cols.foldl
          (fun (acc : SemState × List String) col =>
            if col.type == .COLUMN then
              (validateColumn acc.1 col.value 1 1, acc.2 ++ [col.value])
            else acc) acc).1.errors = acc.1.errors ++ E ∧
        (∀ e ∈ E, ∃ rest, e.message = "Column \x27" ++ rest) ∧
        (cols.foldl
          (fun (acc : SemState × List String) col =>
            if col.type == .COLUMN then
              (validateColumn acc.1 col.value 1 1, acc.2 ++ [col.value])
            else acc) acc).1.currentTable = acc.1.currentTable ∧
        (cols.foldl
          (fun (acc : SemState × List String) col =>
            if col.type == .COLUMN then
              (validateColumn acc.1 col.value 1 1, acc.2 ++ [col.value])
            else acc) acc).2.length = acc.2.length + cols.length := by
  intro cols
  induction cols with
  | nil =>
    intro acc h1 _
    exact ⟨[], by simp, by simp, rfl, by simp⟩
  | cons c rest ih =>
    intro acc h1 h2
    obtain ⟨v, rfl⟩ := h2 c (List.mem_cons_self c rest)
    simp only [List.foldl_cons]
    rw [show (if ((ParseTreeNode.mk NodeType.COLUMN v []).type == NodeType.COLUMN) = true
        then (validateColumn acc.1 (ParseTreeNode.mk NodeType.COLUMN v []).value 1 1,
              acc.2 ++ [(ParseTreeNode.mk NodeType.COLUMN v []).value])
        else acc) = (validateColumn acc.1 v 1 1, acc.2 ++ [v]) from rfl]
    rcases validateColumn_cases acc.1 v h1 with hv | ⟨restm, hv⟩
    · obtain ⟨E, he, hm, hct, hlen⟩ :=
        ih (validateColumn acc.1 v 1 1, acc.2 ++ [v])
          (by rw [hv]; exact h1)
          (fun c hc => h2 c (List.mem_cons_of_mem _ hc))
      refine ⟨E, by rw [he, hv], hm, by rw [hct, hv], ?_⟩
      rw [hlen]
      simp only [List.length_append, List.length_cons, List.length_nil]
      omega
    · obtain ⟨E, he, hm, hct, hlen⟩ :=
        ih (validateColumn acc.1 v 1 1, acc.2 ++ [v])
          (by rw [hv]; exact h1)
          (fun c hc => h2 c (List.mem_cons_of_mem _ hc))
      refine ⟨⟨.SEMANTIC_ERROR, "Column \x27" ++ restm, 1, 1⟩ :: E, ?_, ?_, ?_, ?_⟩
      · rw [he, hv]
        simp
      · intro e hee
        rcases List.mem_cons.1 hee with rfl | hee
        · exact ⟨restm, rfl⟩
        · exact hm e hee
      · rw [hct, hv]
      · rw [hlen]
        simp only [List.length_append, List.length_cons, List.length_nil]
        omega

theorem valFold_count :
    ∀ (vals : List ParseTreeNode) (vc : Nat),
      (∀ c ∈ vals, ∃ v, c = .mk .VALUE v []) →
      vals.foldl
        (fun vc val => if val.type == .VALUE then vc + 1 else vc) vc
        = vc + vals.length := by
  intro vals
  induction vals with
  | nil => intro vc _; simp
  | cons c rest ih =>
    intro vc h
    obtain ⟨v, rfl⟩ := h c (List.mem_cons_self c rest)
    simp only [List.foldl_cons]
    rw [show (if ((ParseTreeNode.mk NodeType.VALUE v []).type == NodeType.VALUE) = true
        then vc + 1 else vc) = vc + 1 from rfl]
    rw [ih (vc + 1) (fun c hc => h c (List.mem_cons_of_mem _ hc))]
    simp only [List.length_cons]
    omega

theorem validateInsert_on_shape (tn : String) (cols vals : List ParseTreeNode)
    (htab : tableExists (strLower tn) = true)
    (hmc : ∀ c ∈ cols, ∃ v, c = .mk .COLUMN v [])
    (hmv : ∀ c ∈ vals, ∃ v, c = .mk .VALUE v [])
    (hcne : cols ≠ []) (hvne : vals ≠ []) :
    ∃ E, (validateInsert semInit (insertShape tn cols vals)).errors =
      E ++ (if cols.length ≠ vals.length
            then [arityDiag cols.length vals.length] else []) ∧
      ∀ e ∈ E, ∃ rest, e.message = "Column \x27" ++ rest := by
  have hctne : strLower tn ≠ "" := by
    intro h0
    rw [h0] at htab
    exact absurd htab (by decide)
  obtain ⟨E, he, hm, hct, hlen⟩ :=
    insColFold_shape cols ({ semInit with currentTable := strLower tn }, [])
      hctne hmc
  have eLoop : insChildLoop semInit [] 0
      [.mk .TABLE_NAME tn [], .mk .COLUMN_LIST "" cols, .mk .VALUE_LIST "" vals] =
      ((cols.foldl
          (fun (acc : SemState × List String) col =>
            if col.type == .COLUMN then
              (validateColumn acc.1 col.value 1 1, acc.2 ++ [col.value])
            else acc) ({ semInit with currentTable := strLower tn }, [])).1,
       (cols.foldl
          (fun (acc : SemState × List String) col =>
            if col.type == .COLUMN then
              (validateColumn acc.1 col.value 1 1, acc.2 ++ [col.value])
            else acc) ({ semInit with currentTable := strLower tn }, [])).2,
       vals.length, false) := by
    have s1 : insChildLoop semInit [] 0
        [.mk .TABLE_NAME tn [], .mk .COLUMN_LIST "" cols, .mk .VALUE_LIST "" vals] =
        (if (!tableExists (strLower tn)) = true
         then (semReportError semInit
                ("Table \x27" ++ tn ++ "\x27 does not exist.") 1 1, [], 0, true)
         else insChildLoop { semInit with currentTable := strLower tn } [] 0
                [.mk .COLUMN_LIST "" cols, .mk .VALUE_LIST "" vals]) := rfl
    rw [s1, show (!tableExists (strLower tn)) = false by rw [htab]; rfl]
    simp only [Bool.false_eq_true, if_false]
    have s2 : insChildLoop { semInit with currentTable := strLower tn } [] 0
        [.mk .COLUMN_LIST "" cols, .mk .VALUE_LIST "" vals] =
        insChildLoop
          (cols.foldl
            (fun (acc : SemState × List String) col =>
              if col.type == .COLUMN then
                (validateColumn acc.1 col.value 1 1, acc.2 ++ [col.value])
              else acc) ({ semInit with currentTable := strLower tn }, [])).1
          (cols.foldl
            (fun (acc : SemState × List String) col =>
              if col.type == .COLUMN then
                (validateColumn acc.1 col.value 1 1, acc.2 ++ [col.value])
              else acc) ({ semInit with currentTable := strLower tn }, [])).2
          0 [.mk .VALUE_LIST "" vals] := rfl
    rw [s2]
    have s3 : insChildLoop
        (cols.foldl
          (fun (acc : SemState × List String) col =>
            if col.type == .COLUMN then
              (validateColumn acc.1 col.value 1 1, acc.2 ++ [col.value])
            else acc) ({ semInit with currentTable := strLower tn }, [])).1
        (cols.foldl
          (fun (acc : SemState × List String) col =>
            if col.type == .COLUMN then
              (validateColumn acc.1 col.value 1 1, acc.2 ++ [col.value])
            else acc) ({ semInit with currentTable := strLower tn }, [])).2
        0 [.mk .VALUE_LIST "" vals] =
        ((cols.foldl
          (fun (acc : SemState × List String) col =>
            if col.type == .COLUMN then
              (validateColumn acc.1 col.value 1 1, acc.2 ++ [col.value])
            else acc) ({ semInit with currentTable := strLower tn }, [])).1,
         (cols.foldl
          (fun (acc : SemState × List String) col =>
            if col.type == .COLUMN then
              (validateColumn acc.1 col.value 1 1, acc.2 ++ [col.value])
            else acc) ({ semInit with currentTable := strLower tn }, [])).2,
         vals.foldl
           (fun vc val => if val.type == .VALUE then vc + 1 else vc) 0,
         false) := rfl
    rw [s3, valFold_count vals 0 hmv]
    simp only [Nat.zero_add]
  have hFnlen : (cols.foldl
      (fun (acc : SemState × List String) col =>
        if col.type == .COLUMN then
          (validateColumn acc.1 col.value 1 1, acc.2 ++ [col.value])
        else acc) ({ semInit with currentTable := strLower tn }, [])).2.length
      = cols.length := by
    rw [hlen]
    simp
  have hEmp : (cols.foldl
      (fun (acc : SemState × List String) col =>
        if col.type == .COLUMN then
          (validateColumn acc.1 col.value 1 1, acc.2 ++ [col.value])
        else acc) ({ semInit with currentTable := strLower tn }, [])).2.isEmpty
      = false := by
    rcases hFn : (cols.foldl
      (fun (acc : SemState × List String) col =>
        if col.type == .COLUMN then
          (validateColumn acc.1 col.value 1 1, acc.2 ++ [col.value])
        else acc) ({ semInit with currentTable := strLower tn }, [])).2 with _ | ⟨x, xs⟩
    · exfalso
      rw [hFn] at hFnlen
      have : 0 < cols.length := List.length_pos.2 hcne
      simp at hFnlen
      omega
    · rw [hFn]
      rfl
  unfold validateInsert
  dsimp only [ParseTreeNode.children, insertShape]
  rw [eLoop]
  dsimp only
  simp only [Bool.false_eq_true, if_false]
  by_cases hlen2 : cols.length = vals.length
  · refine ⟨E, ?_, hm⟩
    rw [if_neg (by simp only [hEmp, hFnlen, hlen2]; simp), if_neg (by simp [hlen2])]
    rw [he]
    simp [semInit]
  · refine ⟨E, ?_, hm⟩
    rw [if_pos (by
          simp only [hEmp, hFnlen]
          simp [hlen2, List.length_pos.2 hvne]),
        if_pos hlen2]
    unfold semReportError
    dsimp only
    rw [he, hFnlen]
    simp [semInit, arityDiag]

/-- C7: for every successfully parsed INSERT statement whose table exists,
the analyzer emits the arity-mismatch diagnostic (citing the two counts) if
and only if the number of declared columns differs from the number of
supplied values — independently of whether the column names are valid,
since the quantification allows arbitrary column leaves.  The second
conjunct is the spec's concrete case: `INSERT INTO employees (id, name)
VALUES (1);` produces exactly one semantic diagnostic, the 2-versus-1
count mismatch. -/
theorem c7_insert_arity_iff :
    (∀ toks (p : PState) tn cols vals,
      (parseInsert toks p).1 = some (insertShape tn cols vals) →
      tableExists (strLower tn) = true →
      (arityDiag cols.length vals.length ∈
          (analyze (some (insertShape tn cols vals))).2.errors ↔
        cols.length ≠ vals.length)) ∧
    (compileStr "INSERT INTO employees (id, name) VALUES (1);").semErrors
      = [arityDiag 2 1] := by
  refine ⟨?_, by decide⟩
  intro toks p tn cols vals hp htab
  have hpair : parseInsert toks p =
      (some (insertShape tn cols vals), (parseInsert toks p).2) := by
    rw [← hp]
  obtain ⟨tn', cols', vals', heq, hc', hv', hmc', hmv'⟩ :=
    parseInsert_shape toks _ _ _ hpair
  simp only [insertShape, ParseTreeNode.mk.injEq, List.cons.injEq,
    and_true, true_and] at heq
  obtain ⟨⟨rfl, -⟩, ⟨-, rfl⟩, ⟨-, rfl⟩⟩ := heq
  have hana : (analyze (some (insertShape tn cols vals))).2 =
      validateInsert semInit (insertShape tn cols vals) := rfl
  rw [hana]
  obtain ⟨E, hE, hm⟩ := validateInsert_on_shape tn cols vals htab hmc' hmv' hc' hv'
  rw [hE]
  constructor
  · intro hmem
    by_contra hno
    rw [if_neg (not_not_intro hno)] at hmem
    simp only [List.append_nil] at hmem
    obtain ⟨rest, hr⟩ := hm _ hmem
    exact colPrefix_ne_arityPrefix rest _ hr.symm
  · intro hne
    rw [if_pos hne]
    exact List.mem_append_right _ (List.mem_singleton.2 rfl)

/-- C7 witness: the arity iff at the concretely parsed statement
`INSERT INTO employees (id, name) VALUES (1);`. -/
theorem c7_insert_arity_iff_witness :
    ((parseInsert
        (tokenize "INSERT INTO employees (id, name) VALUES (1);".data).tokens
        ⟨0, []⟩).1 =
      some (insertShape "employees"
        [.mk .COLUMN "id" [], .mk .COLUMN "name" []] [.mk .VALUE "1" []]) ∧
     tableExists (strLower "employees") = true) ∧
    (arityDiag 2 1 ∈
        (analyze (some (insertShape "employees"
          [.mk .COLUMN "id" [], .mk .COLUMN "name" []]
          [.mk .VALUE "1" []]))).2.errors ↔
      (2 : Nat) ≠ 1) :=
  ⟨⟨rfl, by decide⟩,
   c7_insert_arity_iff.1
     (tokenize "INSERT INTO employees (id, name) VALUES (1);".data).tokens
     ⟨0, []⟩ "employees"
     [.mk .COLUMN "id" [], .mk .COLUMN "name" []] [.mk .VALUE "1" []]
     rfl (by decide)⟩
